import Mathlib

/-!
Verification of the Safe SQL Construction & Resilient Execution Engine of
the katcoder-mysql-mcp server.

The definitions below are a shallow embedding of the TypeScript sources:
`src/implementation.ts` (identifier validation, clause builders, the
operation compiler for every tool), `src/database.ts` / the retrying
`DatabaseManager` (bulk insert, query retry loop, transaction loop, error
translation) and `src/server.ts` (the tool-call error wrapper).

JavaScript values that can appear as data are modelled by `JsVal`
(`undefined` models the JS value of that name, which `record[column]` yields for
a missing key); JavaScript objects are modelled by insertion-ordered
association lists, mirroring `Object.keys` / `Object.entries` order.
Thrown errors are modelled with `Except String`.  Regular-expression
tests from the source are implemented by hand over `List Char`; each
matcher notes the regex it embeds.
-/

namespace MysqlMcp

/-- JavaScript data values as they flow through the compiler. -/
inductive JsVal where
  | null
  | undefined
  | str (s : String)
  | int (n : Int)
  | bool (b : Bool)
  | arr (vs : List JsVal)
  deriving Repr

/-- A compiled statement: SQL text plus its ordered bound-parameter list. -/
structure CompiledStatement where
  sql : String
  params : List JsVal
  deriving Repr

/-- JS word character, `[A-Za-z0-9_]` (the class of `\w` and of the
`sanitizeIdentifier` regex `[^a-zA-Z0-9_]`). -/
def isWordChar (c : Char) : Bool :=
  ('a' ≤ c && c ≤ 'z') || ('A' ≤ c && c ≤ 'Z') || ('0' ≤ c && c ≤ '9') || c = '_'

/-- ASCII fragment of JS `\s`. -/
def isSpaceChar (c : Char) : Bool :=
  c = ' ' || c = '\t' || c = '\n' || c = '\r' || c = '\x0b' || c = '\x0c'

/-- `sanitizeIdentifier`: `identifier.replace(/[^a-zA-Z0-9_]/g, '')`. -/
def sanitizeIdentifier (s : String) : String :=
  ⟨s.toList.filter isWordChar⟩

/-- `validateTableName`: rejects an empty (falsy) string and any string
changed by `sanitizeIdentifier`. -/
def validateTableName (table : String) : Except String Unit :=
  if table = "" then .error "Invalid table name"
  else if sanitizeIdentifier table ≠ table then
    .error "Invalid table name: contains illegal characters"
  else .ok ()

/-- `validateColumnName`: same shape as `validateTableName`. -/
def validateColumnName (column : String) : Except String Unit :=
  if column = "" then .error "Invalid column name"
  else if sanitizeIdentifier column ≠ column then
    .error "Invalid column name: contains illegal characters"
  else .ok ()

/-- Valid identifier predicate (the success condition of the validators). -/
def isValidIdent (s : String) : Bool :=
  s ≠ "" && sanitizeIdentifier s = s

/-- `.toLowerCase()` (ASCII). -/
def jsLower (s : String) : String := ⟨s.toList.map Char.toLower⟩

/-- `.toUpperCase()` (ASCII). -/
def jsUpper (s : String) : String := ⟨s.toList.map Char.toUpper⟩

/-- Case-insensitive literal match: `pat` (given lowercase) against the
head of `cs`; returns the rest on success. -/
def matchCI : List Char → List Char → Option (List Char)
  | [], cs => some cs
  | _ :: _, [] => none
  | p :: ps, c :: cs => if c.toLower = p then matchCI ps cs else none

/-- Case-sensitive literal match, returning the rest on success. -/
def matchLit : List Char → List Char → Option (List Char)
  | [], cs => some cs
  | _ :: _, [] => none
  | p :: ps, c :: cs => if c = p then matchLit ps cs else none

/-- Plain (case-sensitive) substring test. -/
def containsSub (pat : List Char) : List Char → Bool
  | [] => (matchLit pat []).isSome
  | c :: rest => (matchLit pat (c :: rest)).isSome || containsSub pat rest

/-- `\b` before a keyword: the previous character (if any) is a non-word
character.  All keywords used start and end with letters. -/
def boundaryBefore : Option Char → Bool
  | none => true
  | some c => !isWordChar c

/-- `\b` after a keyword: the next character (if any) is a non-word
character. -/
def boundaryAfterOk : List Char → Bool
  | [] => true
  | c :: _ => !isWordChar c

/-- One of `kws` (lowercase) matches word-bounded, case-insensitively, at
the head of `cs`, with `prev` the character just before `cs`. -/
def kwHitAt (kws : List (List Char)) (prev : Option Char) (cs : List Char) :
    Bool :=
  boundaryBefore prev &&
    kws.any fun kw =>
      match matchCI kw cs with
      | some rest => boundaryAfterOk rest
      | none => false

/-- Search for any of `kws` (lowercase) as a word-bounded,
case-insensitive match: the `/\b(kw1|kw2|...)\b/i.test` of the source.
`prev` is the character before `cs`. -/
def hasWordBoundedKw (kws : List (List Char)) : Option Char → List Char → Bool
  | prev, [] => kwHitAt kws prev []
  | prev, c :: rest => kwHitAt kws prev (c :: rest) || hasWordBoundedKw kws (some c) rest

/-- A character matched by `.` in a JS regex without the `s` flag
(ASCII fragment: everything except line terminators). -/
def isDotChar (c : Char) : Bool :=
  c ≠ '\n' && c ≠ '\r'

/-- Phase 3 of `/(\b(or|and)\b.*=.*\b(or|and)\b)/i`: after the `=`,
consume `.` characters until a word-bounded `or`/`and` occurs. -/
def boolInjPhase3 : Option Char → List Char → Bool
  | prev, [] => kwHitAt [['o','r'], ['a','n','d']] prev []
  | prev, c :: rest =>
    kwHitAt [['o','r'], ['a','n','d']] prev (c :: rest) ||
      (isDotChar c && boolInjPhase3 (some c) rest)

/-- Phase 2: consume `.` characters until an `=`, then phase 3. -/
def boolInjPhase2 : Option Char → List Char → Bool
  | _, [] => false
  | _, c :: rest =>
    (c = '=' && boolInjPhase3 (some c) rest) ||
      (isDotChar c && boolInjPhase2 (some c) rest)

/-- After a word-bounded `or`/`and` beginning at the head of `cs`,
does the remainder of the pattern match?  Tries both keywords. -/
def boolInjHead (prev : Option Char) (cs : List Char) : Bool :=
  boundaryBefore prev &&
    ([(['o','r'], 'r'), (['a','n','d'], 'd')].any fun kw =>
      match matchCI kw.1 cs with
      | some rest => boundaryAfterOk rest && boolInjPhase2 (some kw.2) rest
      | none => false)

/-- Phase 1: the search for the start of the boolean-injection pattern
`/(\b(or|and)\b.*=.*\b(or|and)\b)/i` anywhere in the value. -/
def boolInjSearch : Option Char → List Char → Bool
  | prev, [] => boolInjHead prev []
  | prev, c :: rest =>
    boolInjHead prev (c :: rest) || boolInjSearch (some c) rest

/-- The SQL keywords of the first `dangerousPatterns` regex of
`validateWhereConditions`. -/
def whereDangerKws : List (List Char) :=
  ["union", "select", "insert", "update", "delete", "drop", "create",
   "alter", "exec", "execute", "script", "declare", "truncate"].map
    String.toList

/-- `validateWhereConditions`' per-string-value scan: the three
`dangerousPatterns` regexes
`/(\b(union|select|...|truncate)\b)/i`, `/(--|\/\*|\*\/)/` and
`/(\b(or|and)\b.*=.*\b(or|and)\b)/i`. -/
def dangerousWhereValue (s : String) : Bool :=
  hasWordBoundedKw whereDangerKws none s.toList ||
    (containsSub "--".toList s.toList || containsSub "/*".toList s.toList ||
      containsSub "*/".toList s.toList) ||
    boolInjSearch none s.toList

/-- One entry of the `validateWhereConditions` loop: validate the key,
then scan string values for injection patterns. -/
def checkWhereEntry (k : String) (v : JsVal) : Except String Unit := do
  validateColumnName k
  match v with
  | .str s =>
    if dangerousWhereValue s then
      .error s!"Potential SQL injection detected in where condition for column \x27{k}\x27"
    else .ok ()
  | _ => .ok ()

/-- `validateWhereConditions` over the entries of the `where` object.
(The `!where || typeof where !== 'object'` guard is handled by the
`Option` at each call site: a present object is always an assoc list.) -/
def validateWhereConditions : List (String × JsVal) → Except String Unit
  | [] => .ok ()
  | (k, v) :: rest => do
    checkWhereEntry k v
    validateWhereConditions rest

/-- The SQL fragment one `where` entry contributes in `buildWhereClause`. -/
def whereCond (k : String) (v : JsVal) : String :=
  let sk := sanitizeIdentifier k
  match v with
  | .null => s!"`{sk}` IS NULL"
  | .arr vs =>
    let placeholders := String.intercalate "," (vs.map fun _ => "?")
    s!"`{sk}` IN ({placeholders})"
  | _ => s!"`{sk}` = ?"

/-- The bound parameters one `where` entry contributes. -/
def whereParamsOf (v : JsVal) : List JsVal :=
  match v with
  | .null => []
  | .arr vs => vs
  | v => [v]

/-- The condition/parameter accumulation loop of `buildWhereClause`. -/
def buildWhereParts : List (String × JsVal) → List String × List JsVal
  | [] => ([], [])
  | (k, v) :: rest =>
    let (cs, ps) := buildWhereParts rest
    (whereCond k v :: cs, whereParamsOf v ++ ps)

/-- `buildWhereClause`: validates the conditions, then renders
`` `col` IS NULL `` / `` `col` IN (?,...) `` / `` `col` = ? `` joined by
`AND`, prefixed by `WHERE` when non-empty. -/
def buildWhereClause (w : List (String × JsVal)) :
    Except String (String × List JsVal) := do
  validateWhereConditions w
  let (conds, params) := buildWhereParts w
  .ok (if conds.length > 0 then "WHERE " ++ String.intercalate " AND " conds else "",
    params)

/-- `validateData`: every key of the data object is a valid column name. -/
def validateData : List (String × JsVal) → Except String Unit
  | [] => .ok ()
  | (k, _) :: rest => do
    validateColumnName k
    validateData rest

/-- JS template-literal rendering `${v}` of a value. -/
def jsTemplate : JsVal → String
  | .null => "null"
  | .undefined => "undefined"
  | .str s => s
  | .int n => toString n
  | .bool b => if b then "true" else "false"
  | .arr vs => String.intercalate "," (vs.attach.map fun v => jsTemplate v.1)
decreasing_by
  have := List.sizeOf_lt_of_mem v.2
  simp only [JsVal.arr.sizeOf_spec]
  omega

/-- `forEach(col => validateColumnName(col))`. -/
def validateColumns : List String → Except String Unit
  | [] => .ok ()
  | c :: rest => do
    validateColumnName c
    validateColumns rest

/-- `handleRead`'s column-list block: an empty or absent `columns`
array yields `*`; otherwise every name validates and is backtick-quoted. -/
def renderColumns (columns : Option (List String)) : Except String String :=
  match columns with
  | some cols =>
    if cols.length > 0 then do
      validateColumns cols
      pure (String.intercalate ", " (cols.map fun c => s!"`{c}`"))
    else pure "*"
  | none => pure "*"

/-- `handleRead`'s `WHERE` block: a present `where` object goes through
`buildWhereClause`; a non-empty clause is appended and its parameters
adopted. -/
def applyWhere (sql : String) (whereM : Option (List (String × JsVal))) :
    Except String (String × List JsVal) :=
  match whereM with
  | some w => do
    let (clause, whereParams) ← buildWhereClause w
    if clause ≠ "" then pure (sql ++ " " ++ clause, whereParams)
    else pure (sql, ([] : List JsVal))
  | none => pure (sql, ([] : List JsVal))

/-- `handleRead`'s `ORDER BY` block: a truthy `orderBy` is sanitized by
stripping every character outside `[a-zA-Z0-9_,\s]` and embedded. -/
def applyOrderBy (sql : String) (orderBy : Option String) : String :=
  match orderBy with
  | some ob =>
    if ob ≠ "" then
      let sanitized : String :=
        ⟨ob.toList.filter fun c => isWordChar c || c = ',' || isSpaceChar c⟩
      sql ++ s!" ORDER BY {sanitized}"
    else sql
  | none => sql

/-- `handleRead`'s `LIMIT` block: a truthy (non-zero) limit must lie in
`(0, 10000]`. -/
def applyLimit (sql : String) (limit : Option Int) : Except String String :=
  match limit with
  | some l =>
    if l ≠ 0 then
      if l > 0 && l ≤ 10000 then pure (sql ++ s!" LIMIT {l}")
      else .error "Invalid limit value. Must be between 1 and 10000."
    else pure sql
  | none => pure sql

/-- `handleRead`'s `OFFSET` block: a truthy (non-zero) offset must be
non-negative. -/
def applyOffset (sql : String) (offset : Option Int) : Except String String :=
  match offset with
  | some o =>
    if o ≠ 0 then
      if o ≥ 0 then pure (sql ++ s!" OFFSET {o}")
      else .error "Invalid offset value. Must be non-negative."
    else pure sql
  | none => pure sql

/-- `handleRead`'s compile phase: table/column validation, `WHERE`
building, `ORDER BY` strip-sanitization, `LIMIT`/`OFFSET` range checks,
in source order.  `limit`/`offset` are modelled as integers (`parseInt`
is the identity on them); a supplied `0` is falsy in JS, so
`if (args.limit)` skips it. -/
def compileRead (table : String) (columns : Option (List String))
    (whereM : Option (List (String × JsVal))) (orderBy : Option String)
    (limit offset : Option Int) : Except String CompiledStatement := do
  validateTableName table
  let colStr ← renderColumns columns
  let sqlParams ← applyWhere s!"SELECT {colStr} FROM `{table}`" whereM
  let sql := applyOrderBy sqlParams.1 orderBy
  let sql ← applyLimit sql limit
  let sql ← applyOffset sql offset
  .ok ⟨sql, sqlParams.2⟩

/-- `handleCreate`'s compile phase:
`INSERT INTO \`t\` (cols) VALUES (?,...)` with the data values as the
parameter list. -/
def compileCreate (table : String) (data : List (String × JsVal)) :
    Except String CompiledStatement := do
  validateTableName table
  validateData data
  let columns := data.map Prod.fst
  let values := data.map Prod.snd
  let placeholders := String.intercalate ", " (columns.map fun _ => "?")
  let columnNames := String.intercalate ", " (columns.map fun c => s!"`{c}`")
  .ok ⟨s!"INSERT INTO `{table}` ({columnNames}) VALUES ({placeholders})", values⟩

/-- `handleUpdate`'s compile phase.  `if (!args.where)` only rejects an
absent (or otherwise falsy) `where`: an empty object `\x7b\x7d` is truthy in
JS and passes, yielding a statement with an empty `WHERE` clause. -/
def compileUpdate (table : String) (data : List (String × JsVal))
    (whereM : Option (List (String × JsVal))) :
    Except String CompiledStatement := do
  validateTableName table
  validateData data
  match whereM with
  | none =>
    .error "WHERE clause is required for UPDATE operations to prevent accidental updates"
  | some w => do
    let setClause :=
      String.intercalate ", " (data.map fun kv => s!"`{kv.1}` = ?")
    let values := data.map Prod.snd
    let (whereClause, whereParams) ← buildWhereClause w
    .ok ⟨s!"UPDATE `{table}` SET {setClause} {whereClause}", values ++ whereParams⟩

/-- `handleDelete`'s compile phase; same `!args.where` truthiness check
as `handleUpdate`. -/
def compileDelete (table : String)
    (whereM : Option (List (String × JsVal))) :
    Except String CompiledStatement := do
  validateTableName table
  match whereM with
  | none =>
    .error "WHERE clause is required for DELETE operations to prevent accidental deletions"
  | some w => do
    let (whereClause, whereParams) ← buildWhereClause w
    .ok ⟨s!"DELETE FROM `{table}` {whereClause}", whereParams⟩

/-- The write-verb scan of `handleExecute`:
`/\b(insert|update|delete|drop|create|alter|truncate|exec|execute)\b/i`. -/
def writeKeywordsTest (q : String) : Bool :=
  hasWordBoundedKw
    (["insert", "update", "delete", "drop", "create", "alter", "truncate",
      "exec", "execute"].map String.toList) none q.toList

/-- After a `;`: `\s*` then one of `drop|delete|update|insert`
(case-insensitive) then one `\s` — the tail of
`/(;\s*drop\s+|;\s*delete\s+|;\s*update\s+|;\s*insert\s+)/i`. -/
def stackedAfterSemi (cs : List Char) : Bool :=
  let rest := cs.dropWhile isSpaceChar
  ["drop", "delete", "update", "insert"].any fun kw =>
    match matchCI kw.toList rest with
    | some r =>
      match r with
      | c :: _ => isSpaceChar c
      | [] => false
    | none => false

/-- Search for the stacked-statement pattern anywhere in the query. -/
def hasStacked : List Char → Bool
  | [] => false
  | c :: rest => (c = ';' && stackedAfterSemi rest) || hasStacked rest

/-- A token of a `\s+`-separated literal sequence regex. -/
inductive SeqTok where
  | lit (cs : List Char)
  | sp

/-- Match a token sequence at the head of `cs` (case-insensitive
literals; `sp` is `\s+`, taken greedily — sound here because every
following literal starts with a non-space character). -/
def seqMatchAt : List SeqTok → List Char → Bool
  | [], _ => true
  | .lit p :: ts, cs =>
    match matchCI p cs with
    | some rest => seqMatchAt ts rest
    | none => false
  | .sp :: ts, cs =>
    match cs with
    | c :: rest => isSpaceChar c && seqMatchAt ts (rest.dropWhile isSpaceChar)
    | [] => false

/-- Search for a token sequence anywhere in `cs`. -/
def containsSeq (ts : List SeqTok) : List Char → Bool
  | [] => seqMatchAt ts []
  | c :: rest => seqMatchAt ts (c :: rest) || containsSeq ts rest

/-- The third `dangerousPatterns` regex of `handleExecute`:
`/(union\s+select|select\s+\*\s+from\s+information_schema)/i`. -/
def hasUnionOrInfoSchema (cs : List Char) : Bool :=
  containsSeq [.lit "union".toList, .sp, .lit "select".toList] cs ||
    containsSeq
      [.lit "select".toList, .sp, .lit "*".toList, .sp, .lit "from".toList,
        .sp, .lit "information_schema".toList] cs

/-- The `dangerousPatterns` scan of `handleExecute` (all three regexes,
applied regardless of `allowWrite`). -/
def executeDangerous (q : String) : Bool :=
  hasStacked q.toList ||
    (containsSub "/*".toList q.toList || containsSub "*/".toList q.toList ||
      containsSub "--".toList q.toList) ||
    hasUnionOrInfoSchema q.toList

/-- `handleExecute`'s compile phase: the write-permission gate, then the
injection-pattern scans; on success the raw query and its parameters are
handed verbatim to `dbManager.query`. -/
def compileExecute (query : String) (params : Option (List JsVal))
    (allowWrite : Bool) : Except String CompiledStatement := do
  if !allowWrite then
    if writeKeywordsTest query then
      .error "Write operations are not allowed. Set allowWrite: true to enable."
    else .ok ()
  else .ok ()
  if executeDangerous query then
    .error "Potentially dangerous SQL patterns detected in query."
  else .ok ()
  .ok ⟨query, params.getD []⟩

/-- The fixed protected-schema list of `validateSchemaChangeSafety`. -/
def systemTables : List String :=
  ["mysql", "information_schema", "performance_schema", "sys"]

/-- `validateSchemaChangeSafety`: rejects protected system tables
(case-insensitively), then the per-operation required-column checks. -/
def validateSchemaChangeSafety (operation tableName : String)
    (columnName : Option String) : Except String Unit := do
  if systemTables.contains (jsLower tableName) then
    .error s!"Schema modifications are not allowed on system table \x27{tableName}\x27"
  else .ok ()
  match operation with
  | "dropColumn" =>
    if columnName.getD "" = "" then
      .error "Column name is required for dropColumn operation"
    else .ok ()
  | "modifyColumn" =>
    if columnName.getD "" = "" then
      .error "Column name is required for modifyColumn operation"
    else .ok ()
  | _ => .ok ()

def isUpperLetter (c : Char) : Bool := 'A' ≤ c && c ≤ 'Z'

/-!
The `typePattern` regex of `validateColumnType`, applied to the
upper-cased type string:
`^([A-Z]+)(\(\d+\))?(\s+(UNSIGNED|SIGNED|ZEROFILL))?(\s+(NOT\s+)?NULL)?`
`(\s+DEFAULT\s+[^,]+)?(\s+(AUTO_INCREMENT|ON\s+UPDATE\s+CURRENT_TIMESTAMP))?`
`(\s+COMMENT\s+'[^']*')?$`.
It is implemented group by group, from the last group backwards.  The
greedy runs (`[A-Z]+`, `\d+`, `\s+`, `[^']*`) are deterministic because
the construct following each cannot consume a character of the same
class; only `DEFAULT\s+[^,]+` needs an existential split, since a later
`COMMENT '...'` literal may contain characters `[^,]` also matches.
-/

/-- Require at least one leading space, then drop the whole run. -/
def dropSpaces1 (cs : List Char) : Option (List Char) :=
  match cs with
  | c :: _ => if isSpaceChar c then some (cs.dropWhile isSpaceChar) else none
  | [] => none

/-- Group 7 tail: `(\s+COMMENT\s+'[^']*')?$`. -/
def typeG7 (cs : List Char) : Bool :=
  cs.isEmpty ||
    (match dropSpaces1 cs with
     | some r =>
       match matchLit "COMMENT".toList r with
       | some r₂ =>
         match dropSpaces1 r₂ with
         | some r₃ =>
           match r₃ with
           | '\x27' :: r₄ =>
             let body := r₄.takeWhile (· ≠ '\x27')
             (match r₄.drop body.length with
              | '\x27' :: r₅ => r₅.isEmpty
              | _ => false)
           | _ => false
         | none => false
       | none => false
     | none => false)

/-- Group 6 tail: `(\s+(AUTO_INCREMENT|ON\s+UPDATE\s+CURRENT_TIMESTAMP))?`
then group 7. -/
def typeG6 (cs : List Char) : Bool :=
  typeG7 cs ||
    (match dropSpaces1 cs with
     | some r =>
       (match matchLit "AUTO_INCREMENT".toList r with
        | some r₂ => typeG7 r₂
        | none => false) ||
       (match matchLit "ON".toList r with
        | some r₂ =>
          match dropSpaces1 r₂ with
          | some r₃ =>
            match matchLit "UPDATE".toList r₃ with
            | some r₄ =>
              match dropSpaces1 r₄ with
              | some r₅ =>
                match matchLit "CURRENT_TIMESTAMP".toList r₅ with
                | some r₆ => typeG7 r₆
                | none => false
              | none => false
            | none => false
          | none => false
        | none => false)
     | none => false)

/-- `[^,]+` then group 6: existential split over a non-empty comma-free
chunk (the backtracking of `DEFAULT\s+[^,]+` before a later group). -/
def typeG5Chunk : List Char → Bool
  | [] => false
  | c :: rest => c ≠ ',' && (typeG6 rest || typeG5Chunk rest)

/-- Group 5 tail: `(\s+DEFAULT\s+[^,]+)?` then group 6.  `\s+[^,]+`
matches exactly a space followed by a non-empty comma-free chunk. -/
def typeG5 (cs : List Char) : Bool :=
  typeG6 cs ||
    (match dropSpaces1 cs with
     | some r =>
       match matchLit "DEFAULT".toList r with
       | some r₂ =>
         (match r₂ with
          | c :: r₃ => isSpaceChar c && typeG5Chunk r₃
          | [] => false)
       | none => false
     | none => false)

/-- Group 4 tail: `(\s+(NOT\s+)?NULL)?` then group 5. -/
def typeG4 (cs : List Char) : Bool :=
  typeG5 cs ||
    (match dropSpaces1 cs with
     | some r =>
       (match matchLit "NOT".toList r with
        | some r₂ =>
          match dropSpaces1 r₂ with
          | some r₃ =>
            match matchLit "NULL".toList r₃ with
            | some r₄ => typeG5 r₄
            | none => false
          | none => false
        | none => false) ||
       (match matchLit "NULL".toList r with
        | some r₂ => typeG5 r₂
        | none => false)
     | none => false)

/-- Group 3 tail: `(\s+(UNSIGNED|SIGNED|ZEROFILL))?` then group 4. -/
def typeG3 (cs : List Char) : Bool :=
  typeG4 cs ||
    (match dropSpaces1 cs with
     | some r =>
       ["UNSIGNED", "SIGNED", "ZEROFILL"].any fun kw =>
         match matchLit kw.toList r with
         | some r₂ => typeG4 r₂
         | none => false
     | none => false)

/-- Group 2 tail: `(\(\d+\))?` then group 3. -/
def typeG2 (cs : List Char) : Bool :=
  typeG3 cs ||
    (match cs with
     | '(' :: r =>
       let digits := r.takeWhile Char.isDigit
       decide (digits ≠ []) &&
         (match r.drop digits.length with
          | ')' :: r₂ => typeG3 r₂
          | _ => false)
     | _ => false)

/-- The whole `typePattern` on the upper-cased type string:
`^([A-Z]+)` then groups 2-7 and `$`. -/
def typePatternTest (s : String) : Bool :=
  let cs := s.toList
  let letters := cs.takeWhile isUpperLetter
  decide (letters ≠ []) && typeG2 (cs.drop letters.length)

/-- The base-type allow-list of `validateColumnType`. -/
def allowedTypes : List String :=
  ["INT", "INTEGER", "BIGINT", "SMALLINT", "TINYINT", "MEDIUMINT",
   "DECIMAL", "NUMERIC", "FLOAT", "DOUBLE", "REAL",
   "CHAR", "VARCHAR", "TEXT", "TINYTEXT", "MEDIUMTEXT", "LONGTEXT",
   "DATE", "TIME", "DATETIME", "TIMESTAMP", "YEAR",
   "BOOLEAN", "BOOL",
   "BINARY", "VARBINARY", "BLOB", "TINYBLOB", "MEDIUMBLOB", "LONGBLOB",
   "ENUM", "SET", "JSON"]

/-- `validateColumnType`: the `typePattern` grammar check on the
upper-cased string, then the base type (text before the first `(`,
before the first space) against the allow-list. -/
def validateColumnType (dataType : String) : Except String Unit := do
  if !typePatternTest (jsUpper dataType) then
    .error s!"Invalid column type: \x27{dataType}\x27. Use standard MySQL data types."
  else .ok ()
  let baseType :=
    jsUpper ⟨(dataType.toList.takeWhile (· ≠ '(')).takeWhile (· ≠ ' ')⟩
  if !allowedTypes.contains baseType then
    .error
      (s!"Unsupported column type: \x27{baseType}\x27. Allowed types: " ++
        String.intercalate ", " allowedTypes)
  else .ok ()

/-- `validateIndexType` against `BTREE|HASH|FULLTEXT|SPATIAL`. -/
def validateIndexType (indexType : String) : Except String Unit :=
  if !(["BTREE", "HASH", "FULLTEXT", "SPATIAL"].contains (jsUpper indexType)) then
    .error
      s!"Invalid index type: \x27{indexType}\x27. Allowed types: BTREE, HASH, FULLTEXT, SPATIAL"
  else .ok ()

/-- `.replace(/\x27/g, "\x27\x27")`: double every single quote. -/
def escapeQuotes (s : String) : String :=
  ⟨(s.toList.map fun c =>
    if c = '\x27' then ['\x27', '\x27'] else [c]).flatten⟩

/-- A column definition object as received by `add_column` /
`modify_column`. -/
structure ColumnDef where
  name : String
  type : String
  nullable : Option Bool := none
  /-- `none` models JS `undefined` (the `!== undefined` check). -/
  default : Option JsVal := none
  autoIncrement : Bool := false
  comment : Option String := none

/-- `buildColumnDefinition`: renders
`` `name` TYPE [NOT NULL|NULL] [DEFAULT ...] [AUTO_INCREMENT]
[COMMENT '...'] ``; string defaults and comments are embedded as
quote-doubled literals in the SQL text. -/
def buildColumnDefinition (col : ColumnDef) : String :=
  let definition := s!"`{sanitizeIdentifier col.name}` {col.type}"
  let definition :=
    match col.nullable with
    | some false => definition ++ " NOT NULL"
    | some true => definition ++ " NULL"
    | none => definition
  let definition :=
    match col.default with
    | none => definition
    | some .null => definition ++ " DEFAULT NULL"
    | some (.str s) =>
      definition ++ " DEFAULT \x27" ++ escapeQuotes s ++ "\x27"
    | some v => definition ++ " DEFAULT " ++ jsTemplate v
  let definition :=
    if col.autoIncrement then definition ++ " AUTO_INCREMENT" else definition
  match col.comment with
  | some c =>
    if c ≠ "" then
      definition ++ " COMMENT \x27" ++ escapeQuotes c ++ "\x27"
    else definition
  | none => definition

/-- The `position` argument of `add_column`. -/
structure ColumnPosition where
  after : Option String := none
  first : Bool := false

/-- A database oracle for the existence pre-check queries: maps a query
and its parameters to the returned row set. -/
def Db : Type := String → List JsVal → List JsVal

/-- The `INFORMATION_SCHEMA.COLUMNS` existence pre-check text. -/
def colExistsQuery : String :=
  "\n        SELECT COLUMN_NAME \n        FROM INFORMATION_SCHEMA.COLUMNS \n        WHERE TABLE_SCHEMA = ? AND TABLE_NAME = ? AND COLUMN_NAME = ?\n      "

/-- The `INFORMATION_SCHEMA.TABLES` existence pre-check text. -/
def tableExistsQuery : String :=
  "\n        SELECT TABLE_NAME \n        FROM INFORMATION_SCHEMA.TABLES \n        WHERE TABLE_SCHEMA = ? AND TABLE_NAME = ?\n      "

/-- The `INFORMATION_SCHEMA.STATISTICS` existence pre-check text. -/
def indexExistsQuery : String :=
  "\n        SELECT INDEX_NAME \n        FROM INFORMATION_SCHEMA.STATISTICS \n        WHERE TABLE_SCHEMA = ? AND TABLE_NAME = ? AND INDEX_NAME = ?\n      "

/-- `handleAddColumn`'s compile phase (the Schema-Safety Guard runs
right after the table-name validation, before the column checks and
before the `ALTER TABLE` text exists). -/
def compileAddColumn (table : String) (column : Option ColumnDef)
    (position : Option ColumnPosition) : Except String CompiledStatement := do
  validateTableName table
  validateSchemaChangeSafety "addColumn" table (column.map (·.name))
  match column with
  | none => .error "Column definition is required"
  | some col => do
    if col.name = "" || col.type = "" then
      .error "Column name and type are required"
    else .ok ()
    validateColumnName col.name
    validateColumnType col.type
    let columnDefinition := buildColumnDefinition col
    let sql := s!"ALTER TABLE `{table}` ADD COLUMN {columnDefinition}"
    let sql :=
      match position with
      | some p =>
        if p.after.getD "" ≠ "" then
          let afterId := sanitizeIdentifier (p.after.getD "")
          sql ++ s!" AFTER `{afterId}`"
        else if p.first then sql ++ " FIRST"
        else sql
      | none => sql
    .ok ⟨sql, []⟩

/-- `handleDropColumn`'s compile phase, with the existence pre-check
against the oracle. -/
def compileDropColumn (db : Db) (dbName table column : String) :
    Except String CompiledStatement := do
  validateTableName table
  validateColumnName column
  validateSchemaChangeSafety "dropColumn" table (some column)
  let existingColumns := db colExistsQuery [.str dbName, .str table, .str column]
  if existingColumns.length = 0 then
    .error s!"Column \x27{column}\x27 does not exist in table \x27{table}\x27"
  else .ok ⟨s!"ALTER TABLE `{table}` DROP COLUMN `{column}`", []⟩

/-- The `newDefinition` object of `modify_column` (spread onto the
column name). -/
structure ColumnSpec where
  type : String
  nullable : Option Bool := none
  default : Option JsVal := none
  autoIncrement : Bool := false
  comment : Option String := none

def ColumnSpec.withName (s : ColumnSpec) (n : String) : ColumnDef :=
  ⟨n, s.type, s.nullable, s.default, s.autoIncrement, s.comment⟩

/-- `handleModifyColumn`'s compile phase. -/
def compileModifyColumn (table column : String)
    (newDefinition : Option ColumnSpec) : Except String CompiledStatement := do
  validateTableName table
  validateColumnName column
  validateSchemaChangeSafety "modifyColumn" table (some column)
  match newDefinition with
  | none => .error "New column definition is required"
  | some nd => do
    validateColumnType nd.type
    let columnDefinition := buildColumnDefinition (nd.withName column)
    .ok ⟨s!"ALTER TABLE `{table}` MODIFY COLUMN {columnDefinition}", []⟩

/-- `handleRenameColumn`'s compile phase; note the raw
`args.newDefinition || args.oldName` embedded at the end of the
`CHANGE COLUMN` statement. -/
def compileRenameColumn (db : Db) (dbName table oldName newName : String)
    (newDefinition : Option String) : Except String CompiledStatement := do
  validateTableName table
  validateColumnName oldName
  validateColumnName newName
  validateSchemaChangeSafety "renameColumn" table (some oldName)
  let existingColumns := db colExistsQuery [.str dbName, .str table, .str oldName]
  if existingColumns.length = 0 then
    .error s!"Column \x27{oldName}\x27 does not exist in table \x27{table}\x27"
  else .ok ()
  let newColumnExists := db colExistsQuery [.str dbName, .str table, .str newName]
  if newColumnExists.length > 0 then
    .error s!"Column \x27{newName}\x27 already exists in table \x27{table}\x27"
  else .ok ()
  let defStr := if newDefinition.getD "" ≠ "" then newDefinition.getD "" else oldName
  .ok ⟨s!"ALTER TABLE `{table}` CHANGE COLUMN `{oldName}` `{newName}` {defStr}", []⟩

/-- `handleRenameTable`'s compile phase (the guard targets `oldName`). -/
def compileRenameTable (db : Db) (dbName oldName newName : String) :
    Except String CompiledStatement := do
  validateTableName oldName
  validateTableName newName
  validateSchemaChangeSafety "renameTable" oldName none
  let existingTables := db tableExistsQuery [.str dbName, .str oldName]
  if existingTables.length = 0 then
    .error s!"Table \x27{oldName}\x27 does not exist"
  else .ok ()
  let newTableExists := db tableExistsQuery [.str dbName, .str newName]
  if newTableExists.length > 0 then
    .error s!"Table \x27{newName}\x27 already exists"
  else .ok ()
  .ok ⟨s!"RENAME TABLE `{oldName}` TO `{newName}`", []⟩

/-- `handleAddIndex`'s compile phase (guard before the name/column
checks). -/
def compileAddIndex (table : String) (name : Option String)
    (columns : Option (List String)) (indexType : Option String)
    (unique : Bool) : Except String CompiledStatement := do
  validateTableName table
  validateSchemaChangeSafety "addIndex" table none
  if name.getD "" = "" || (columns.map List.length).getD 0 = 0 then
    .error "Index name and columns are required"
  else .ok ()
  let cols := columns.getD []
  validateColumns cols
  let tv := indexType.getD ""
  if tv ≠ "" then validateIndexType tv else .ok ()
  let indexTypeStr :=
    if tv ≠ "" then s!"{tv} INDEX"
    else if unique then "UNIQUE INDEX"
    else "INDEX"
  let columnList :=
    String.intercalate ", " (cols.map fun c => s!"`{sanitizeIdentifier c}`")
  let idxName := sanitizeIdentifier (name.getD "")
  .ok ⟨s!"CREATE {indexTypeStr} `{idxName}` ON `{table}` ({columnList})", []⟩

/-- `handleDropIndex`'s compile phase. -/
def compileDropIndex (db : Db) (dbName table : String) (name : Option String) :
    Except String CompiledStatement := do
  validateTableName table
  validateSchemaChangeSafety "dropIndex" table none
  if name.getD "" = "" then .error "Index name is required" else .ok ()
  let idxName := name.getD ""
  let existingIndexes :=
    db indexExistsQuery [.str dbName, .str table, .str idxName]
  if existingIndexes.length = 0 then
    .error s!"Index \x27{idxName}\x27 does not exist on table \x27{table}\x27"
  else
    let sanitizedIdx := sanitizeIdentifier idxName
    .ok ⟨s!"DROP INDEX `{sanitizedIdx}` ON `{table}`", []⟩

/-- JS `record[column]`: the value under a key, `undefined` when the key
is missing. -/
def lookupVal (r : List (String × JsVal)) (c : String) : JsVal :=
  match r.find? (fun kv => kv.1 = c) with
  | some kv => kv.2
  | none => .undefined

/-- The per-record `validateData(record)` loop over bulk records. -/
def validateRecords : List (List (String × JsVal)) → Except String Unit
  | [] => .ok ()
  | r :: rest => do
    validateData r
    validateRecords rest

/-- An operation nested in a `transaction` tool call
(`operation.type` dispatch of `handleTransaction`). -/
inductive TxOp where
  | create (table : String) (data : List (String × JsVal))
  | bulkInsert (table : String) (data : List (List (String × JsVal)))
  | update (table : String) (data : List (String × JsVal))
      (whereM : Option (List (String × JsVal)))
  | delete (table : String) (whereM : Option (List (String × JsVal)))
  | execute (query : String) (params : Option (List JsVal))
  | unsupported (ty : String)

/-- `handleTransaction`'s per-operation compilation switch.  Note the
`execute` case: the only check is that `operation.query` is truthy; the
raw text and parameters are pushed verbatim, with no write gate and no
injection scans. -/
def compileTxOp : TxOp → Except String CompiledStatement
  | .create table data => do
    validateTableName table
    validateData data
    let createColumns := data.map Prod.fst
    let createValues := data.map Prod.snd
    let createPlaceholders := String.intercalate ", " (createColumns.map fun _ => "?")
    let createColumnNames := String.intercalate ", " (createColumns.map fun c => s!"`{c}`")
    .ok ⟨s!"INSERT INTO `{table}` ({createColumnNames}) VALUES ({createPlaceholders})",
      createValues⟩
  | .bulkInsert table data => do
    validateTableName table
    if data.length = 0 then
      .error "Bulk insert data must be a non-empty array"
    else .ok ()
    validateRecords data
    let bulkColumns := (data.headD []).map Prod.fst
    let bulkColumnNames := String.intercalate ", " (bulkColumns.map fun c => s!"`{c}`")
    let placeholders := String.intercalate ", " (bulkColumns.map fun _ => "?")
    let valuesPlaceholders := String.intercalate ", " (data.map fun _ => s!"({placeholders})")
    let allValues := (data.map fun r => bulkColumns.map (lookupVal r)).flatten
    .ok ⟨s!"INSERT INTO `{table}` ({bulkColumnNames}) VALUES {valuesPlaceholders}", allValues⟩
  | .update table data whereM => do
    validateTableName table
    validateData data
    match whereM with
    | none => .error "WHERE clause required for UPDATE in transaction"
    | some w => do
      let setClause := String.intercalate ", " (data.map fun kv => s!"`{kv.1}` = ?")
      let updateValues := data.map Prod.snd
      let (updateWhereClause, updateWhereParams) ← buildWhereClause w
      .ok ⟨s!"UPDATE `{table}` SET {setClause} {updateWhereClause}",
        updateValues ++ updateWhereParams⟩
  | .delete table whereM => do
    validateTableName table
    match whereM with
    | none => .error "WHERE clause required for DELETE in transaction"
    | some w => do
      let (deleteWhereClause, deleteWhereParams) ← buildWhereClause w
      .ok ⟨s!"DELETE FROM `{table}` {deleteWhereClause}", deleteWhereParams⟩
  | .execute query params =>
    if query = "" then .error "Query required for EXECUTE in transaction"
    else .ok ⟨query, params.getD []⟩
  | .unsupported ty => .error s!"Unsupported operation type: {ty}"

/-- `handleTransaction`'s compile phase: the non-empty check, then each
operation compiled in order, failing the whole list on the first bad
step — before anything is executed. -/
def compileTransaction (operations : List TxOp) :
    Except String (List CompiledStatement) := do
  if operations.length = 0 then
    .error "Transaction must contain at least one operation"
  else .ok ()
  operations.mapM compileTxOp

/-- `DatabaseManager.bulkInsert`'s backtick stripping of column names. -/
def stripBackticks (s : String) : String :=
  ⟨s.toList.filter (· ≠ '\x60')⟩

/-- The `bulkInsert` same-structure loop (from record index 1): each
record must have as many keys as the first record and contain every one
of its columns. -/
def checkRecordsStructure (columns : List String) :
    List (List (String × JsVal)) → Nat → Except String Unit
  | [], _ => .ok ()
  | r :: rest, i =>
    let recordColumns := r.map Prod.fst
    if recordColumns.length ≠ columns.length ||
        !(columns.all fun col => recordColumns.contains col) then
      .error s!"Record at index {i} has different structure than the first record"
    else checkRecordsStructure columns rest (i + 1)

/-- `DatabaseManager.bulkInsert`'s compile phase: non-empty data, a
non-empty column set from record 0, the same-structure check, then one
multi-row `INSERT` with parameters flattened row-major in record-0
column order. -/
def dbBulkInsert (table : String) (data : List (List (String × JsVal))) :
    Except String CompiledStatement := do
  if data.length = 0 then .error "Data must be a non-empty array" else .ok ()
  let firstRecord := data.headD []
  let columns := firstRecord.map Prod.fst
  if columns.length = 0 then
    .error "Records must contain at least one column"
  else .ok ()
  checkRecordsStructure columns data.tail 1
  let columnNames :=
    String.intercalate ", " (columns.map fun col => s!"`{stripBackticks col}`")
  let placeholders := String.intercalate ", " (columns.map fun _ => "?")
  let valuesPlaceholders := String.intercalate ", " (data.map fun _ => s!"({placeholders})")
  let allValues := (data.map fun r => columns.map (lookupVal r)).flatten
  .ok ⟨s!"INSERT INTO `{table}` ({columnNames}) VALUES {valuesPlaceholders}", allValues⟩

/-- The standalone `bulk_insert` tool's compile phase:
`handleBulkInsert`'s validations followed by
`DatabaseManager.bulkInsert`. -/
def handleBulkInsertCompile (table : String)
    (data : List (List (String × JsVal))) : Except String CompiledStatement := do
  validateTableName table
  if data.length = 0 then
    .error "Bulk insert data must be a non-empty array"
  else .ok ()
  validateRecords data
  dbBulkInsert table data

/-- A driver error as classified by the retrying `DatabaseManager`. -/
structure DriverError where
  code : Option String := none
  errno : Option String := none
  message : String := ""

/-- `retryableErrorCodes` of `isRetryableError`. -/
def retryableErrorCodes : List String :=
  ["ECONNREFUSED", "ETIMEDOUT", "ENOTFOUND", "ECONNRESET", "EPIPE",
   "ER_LOCK_WAIT_TIMEOUT", "ER_LOCK_DEADLOCK", "PROTOCOL_CONNECTION_LOST",
   "PROTOCOL_ENQUEUE_AFTER_FATAL_ERROR"]

/-- `isRetryableError`: code allow-list, `errno === 'ETIMEDOUT'`, or a
message containing `timeout` / `Connection lost`. -/
def isRetryableError (e : DriverError) : Bool :=
  (match e.code with
   | some c => retryableErrorCodes.contains c
   | none => false) ||
    decide (e.errno = some "ETIMEDOUT") ||
    containsSub "timeout".toList e.message.toList ||
    containsSub "Connection lost".toList e.message.toList

/-- The connection fields `formatDatabaseError` interpolates. -/
structure DbConfig where
  host : String
  port : Nat
  user : String
  database : String

/-- One attempt of the `ER_DUP_ENTRY` extraction regex
`/Duplicate entry '([^']+)' for key '([^']+)'/` at the head of `cs`. -/
def dupEntryAt (cs : List Char) : Option (String × String) :=
  match matchLit "Duplicate entry \x27".toList cs with
  | some r =>
    let v := r.takeWhile (· ≠ '\x27')
    if v = [] then none
    else
      match matchLit "\x27 for key \x27".toList (r.drop v.length) with
      | some r₂ =>
        let k := r₂.takeWhile (· ≠ '\x27')
        if k = [] then none
        else
          match r₂.drop k.length with
          | '\x27' :: _ => some (⟨v⟩, ⟨k⟩)
          | _ => none
      | none => none
  | none => none

/-- Leftmost match of the `ER_DUP_ENTRY` extraction regex. -/
def dupEntrySearch : List Char → Option (String × String)
  | [] => dupEntryAt []
  | c :: rest =>
    match dupEntryAt (c :: rest) with
    | some x => some x
    | none => dupEntrySearch rest

/-- The retrying `DatabaseManager.formatDatabaseError`: driver error
codes translated to actionable messages. -/
def formatDatabaseError (cfg : DbConfig) (e : DriverError) : String :=
  let host := cfg.host
  let port := cfg.port
  let user := cfg.user
  let database := cfg.database
  let message := e.message
  if e.code = some "ER_ACCESS_DENIED_ERROR" then
    s!"Database access denied. Check your MySQL credentials (user: {user}, host: {host}:{port}). Verify the user has proper permissions."
  else if e.code = some "ER_BAD_DB_ERROR" then
    s!"Database \x27{database}\x27 does not exist on {host}:{port}. Create the database or verify the connection string."
  else if e.code = some "ECONNREFUSED" then
    s!"Connection refused to MySQL server at {host}:{port}. Ensure MySQL is running and accessible at this address."
  else if e.code = some "ETIMEDOUT" || e.errno = some "ETIMEDOUT" then
    s!"Connection timeout to MySQL server at {host}:{port}. Check network connectivity and firewall settings."
  else if e.code = some "ER_NO_SUCH_TABLE" then
    s!"Table does not exist in database \x27{database}\x27. Use the \x27list\x27 tool to see available tables."
  else if e.code = some "ER_DUP_ENTRY" then
    match dupEntrySearch e.message.toList with
    | some vk =>
      s!"Duplicate entry \x27{vk.1}\x27 for key \x27{vk.2}\x27. A record with this unique value already exists."
    | none => "Duplicate entry. A record with this unique value already exists."
  else if e.code = some "ER_PARSE_ERROR" then
    s!"SQL syntax error: {message}. Check your SQL syntax."
  else if e.code = some "ER_BAD_FIELD_ERROR" then
    s!"Unknown column in query: {message}. Use \x27describe_table\x27 to see available columns."
  else if e.code = some "ER_LOCK_WAIT_TIMEOUT" then
    "Lock wait timeout exceeded. The table is locked by another transaction. Operation was retried but still failed."
  else if e.code = some "ER_LOCK_DEADLOCK" then
    "Deadlock detected. The transaction was rolled back. You can retry the operation."
  else if e.code = some "PROTOCOL_CONNECTION_LOST" then
    "MySQL connection was lost. This may be due to network issues or MySQL server restart. The operation has been retried."
  else if e.code = some "ENOTFOUND" then
    s!"MySQL host \x27{host}\x27 not found. Check the hostname in your connection string."
  else
    let errorCode :=
      match e.code with
      | some c => s!" (Error code: {c})"
      | none => ""
    s!"Database error: {message}{errorCode}"

/-- Observable events of one `DatabaseManager.query` call. -/
inductive QEvent where
  | attempt (i : Nat)
  | sleep (ms : Nat)
  deriving Repr, DecidableEq

/-- The retry loop of `DatabaseManager.query`.  `plan i` is the driver
outcome of attempt `i` (`none` = success); `fuel` bounds the recursion
and equals the number of attempts still allowed.  A failing attempt
retries (after `retryDelay * attempt` ms) only while `attempt <
maxRetries` and the error is retryable; otherwise the loop breaks and
the translated last error is surfaced. -/
def queryLoop (plan : Nat → Option DriverError) (maxRetries retryDelay : Nat)
    (fmt : DriverError → String) : Nat → Nat → List QEvent × Except String Unit
  | _, 0 => ([], .error "unreachable: retry loop exhausted")
  | i, fuel + 1 =>
    match plan i with
    | none => ([.attempt i], .ok ())
    | some e =>
      if i < maxRetries && isRetryableError e then
        let r := queryLoop plan maxRetries retryDelay fmt (i + 1) fuel
        (.attempt i :: .sleep (retryDelay * i) :: r.1, r.2)
      else ([.attempt i], .error (fmt e))

/-- `DatabaseManager.query`: attempts start at 1 with `maxRetries` fuel. -/
def queryRun (plan : Nat → Option DriverError) (maxRetries retryDelay : Nat)
    (fmt : DriverError → String) : List QEvent × Except String Unit :=
  queryLoop plan maxRetries retryDelay fmt 1 maxRetries

/-- Observable events of one `DatabaseManager.transaction` call. -/
inductive TxEvent where
  | acquire
  | beginTx
  | exec (i : Nat)
  | commit
  | rollback
  | release
  | sleep (ms : Nat)
  deriving Repr, DecidableEq

/-- Events of a failing attempt over `n` statements that dies at step
`k`: acquire, begin, the executed steps before `k`, rollback.  (`k = n`
models a failing `commit`.) -/
def txAttemptFail (n k : Nat) : List TxEvent :=
  .acquire :: .beginTx :: ((List.range (min k n)).map .exec) ++ [.rollback]

/-- Events of a successful attempt over `n` statements. -/
def txAttemptOk (n : Nat) : List TxEvent :=
  .acquire :: .beginTx :: ((List.range n).map .exec) ++ [.commit, .release]

/-- The retry loop of `DatabaseManager.transaction` over `n` compiled
statements.  `plan i = some (k, e)` makes attempt `i` fail at step `k`
with driver error `e`.  On failure the connection is rolled back, then
(per the `finally`) released — after the backoff sleep when retrying —
and the translated error is surfaced only once the loop is done. -/
def txLoop (plan : Nat → Option (Nat × DriverError))
    (maxRetries retryDelay n : Nat) (fmt : DriverError → String) :
    Nat → Nat → List TxEvent × Except String Unit
  | _, 0 => ([], .error "unreachable: retry loop exhausted")
  | i, fuel + 1 =>
    match plan i with
    | none => (txAttemptOk n, .ok ())
    | some ke =>
      if i < maxRetries && isRetryableError ke.2 then
        let r := txLoop plan maxRetries retryDelay n fmt (i + 1) fuel
        (txAttemptFail n ke.1 ++ [.sleep (retryDelay * i), .release] ++ r.1, r.2)
      else (txAttemptFail n ke.1 ++ [.release], .error (fmt ke.2))

/-- `DatabaseManager.transaction`: attempts start at 1. -/
def txRun (plan : Nat → Option (Nat × DriverError))
    (maxRetries retryDelay n : Nat) (fmt : DriverError → String) :
    List TxEvent × Except String Unit :=
  txLoop plan maxRetries retryDelay n fmt 1 maxRetries

/-- `handleTransaction` end to end: compile every step, and only when
the whole list compiled hand it to `DatabaseManager.transaction`; a
compile failure produces no execution events at all. -/
def handleTransactionModel (ops : List TxOp)
    (plan : Nat → Option (Nat × DriverError)) (maxRetries retryDelay : Nat)
    (fmt : DriverError → String) : List TxEvent × Except String Unit :=
  match compileTransaction ops with
  | .error e => ([], .error e)
  | .ok qs => txRun plan maxRetries retryDelay qs.length fmt

/-- A JS `Error` as seen by the tool-call wrapper (`message` plus the
Node-generated `stack`). -/
structure JsError where
  message : String
  stack : Option String

/-- A thrown value: an `Error` instance or anything else. -/
inductive Thrown where
  | err (e : JsError)
  | other

/-- The failure payload the server returns to the caller. -/
structure ToolErrorBody where
  error : Bool
  message : String
  details : Option String
  deriving Repr

/-- The `catch` branch of the `CallToolRequestSchema` handler in
`server.ts`: `message` is the error's message and `details` is the
error's `stack` property, verbatim. -/
def callToolCatch : Thrown → ToolErrorBody
  | .err e => ⟨true, e.message, e.stack⟩
  | .other => ⟨true, "Unknown error occurred", none⟩

/-! ## Helper lemmas -/

theorem exBind_ok {α β : Type} (a : α) (f : α → Except String β) :
    (Except.ok a >>= f) = f a := rfl

theorem exBind_error {α β : Type} (e : String) (f : α → Except String β) :
    ((Except.error e : Except String α) >>= f) = .error e := rfl

theorem exBind_ok_iff {α β : Type} {a : Except String α}
    {f : α → Except String β} {b : β} :
    (a >>= f) = .ok b ↔ ∃ x, a = .ok x ∧ f x = .ok b := by
  cases a <;> simp [exBind_ok, exBind_error]

theorem strToString (s : String) : toString s = s := rfl

theorem exPure {α : Type} (a : α) : (pure a : Except String α) = .ok a := rfl

/-! ## Claims -/

/-- C2, counterexample: an empty `where` map is truthy in JS, so an
`Update` or `Delete` with `where = \x7b\x7d` does not fail compilation with a
`ValidationError` as the claim requires: it compiles into a statement
with an empty `WHERE` clause (touching every row).  Moreover a non-empty
`where` with a valid column key can still fail, when a string value
matches the injection scan. -/
theorem c2_counterexample :
    compileUpdate "users" [("role", .str "admin")] (some []) =
      .ok ⟨"UPDATE `users` SET `role` = ? ", [.str "admin"]⟩ ∧
    compileDelete "users" (some []) = .ok ⟨"DELETE FROM `users` ", []⟩ ∧
    compileUpdate "t" [("a", .int 1)] (some [("b", .str "1 or 1=1 or 2")]) =
      .error "Potential SQL injection detected in where condition for column \x27b\x27" :=
  ⟨rfl, rfl, rfl⟩

/-- C2 (amended): `Update`/`Delete` compilation fails with a
`ValidationError` when `where` is absent; an empty `where` map compiles
(the clause built from it is empty, so the statement has no `WHERE`
restriction); a present `where` map compiles exactly when
`buildWhereClause` accepts it — its keys validate and its string values
pass the injection scan — and a scan failure propagates as the
compilation error.  All decided at compile time, before any SQL reaches
the database. -/
theorem c2_update_delete_where :
    (∀ t (data : List (String × JsVal)),
      validateTableName t = .ok () → validateData data = .ok () →
      compileUpdate t data none =
        .error "WHERE clause is required for UPDATE operations to prevent accidental updates") ∧
    (∀ t, validateTableName t = .ok () →
      compileDelete t none =
        .error "WHERE clause is required for DELETE operations to prevent accidental deletions") ∧
    buildWhereClause [] = .ok ("", []) ∧
    (∀ t data, validateTableName t = .ok () → validateData data = .ok () →
      compileUpdate t data (some []) =
        .ok ⟨"UPDATE `" ++ t ++ "` SET " ++
          String.intercalate ", " (data.map fun kv => "`" ++ kv.1 ++ "` = ?") ++ " ",
          data.map Prod.snd⟩) ∧
    (∀ t, validateTableName t = .ok () →
      compileDelete t (some []) = .ok ⟨"DELETE FROM `" ++ t ++ "` ", []⟩) ∧
    (∀ t data w c p, validateTableName t = .ok () → validateData data = .ok () →
      buildWhereClause w = .ok (c, p) →
      compileUpdate t data (some w) =
        .ok ⟨"UPDATE `" ++ t ++ "` SET " ++
          String.intercalate ", " (data.map fun kv => "`" ++ kv.1 ++ "` = ?") ++ " " ++ c,
          data.map Prod.snd ++ p⟩) ∧
    (∀ t data w e, validateTableName t = .ok () → validateData data = .ok () →
      validateWhereConditions w = .error e →
      compileUpdate t data (some w) = .error e) := by
  refine ⟨?_, ?_, rfl, ?_, ?_, ?_, ?_⟩
  · intro t data h1 h2
    simp [compileUpdate, h1, h2, exBind_ok]
  · intro t h1
    simp [compileDelete, h1, exBind_ok]
  · intro t data h1 h2
    simp [compileUpdate, h1, h2, exBind_ok, buildWhereClause, validateWhereConditions,
      buildWhereParts, String.append_assoc, String.append_empty, String.empty_append,
      strToString]
  · intro t h1
    simp [compileDelete, h1, exBind_ok, buildWhereClause, validateWhereConditions,
      buildWhereParts, String.append_assoc, String.append_empty, String.empty_append,
      strToString]
  · intro t data w c p h1 h2 h3
    simp [compileUpdate, h1, h2, h3, exBind_ok, String.append_assoc, String.append_empty,
      String.empty_append, strToString]
  · intro t data w e h1 h2 h3
    simp [compileUpdate, h1, h2, exBind_ok, exBind_error, buildWhereClause, h3]

/-- C2, witness: the amended theorem applied at concrete inputs. -/
theorem c2_witness :
    compileUpdate "t" [("a", .int 1)] none =
      .error "WHERE clause is required for UPDATE operations to prevent accidental updates" ∧
    compileDelete "t" none =
      .error "WHERE clause is required for DELETE operations to prevent accidental deletions" ∧
    compileUpdate "t" [("a", .int 1)] (some [("id", .int 5)]) =
      .ok ⟨"UPDATE `t` SET `a` = ? WHERE `id` = ?", [.int 1, .int 5]⟩ := by
  refine ⟨c2_update_delete_where.1 "t" [("a", .int 1)] rfl rfl,
    c2_update_delete_where.2.1 "t" rfl, ?_⟩
  have h := c2_update_delete_where.2.2.2.2.2.1 "t" [("a", .int 1)] [("id", .int 5)]
    "WHERE `id` = ?" [.int 5] rfl rfl rfl
  simpa using h

/-- C9, counterexample: `limit: 0` is a supplied limit outside
`[1, 10000]`, yet `if (args.limit)` treats `0` as falsy, so the `Read`
compiles — without a `LIMIT` clause — instead of failing. -/
theorem c9_counterexample :
    compileRead "t" none none none (some 0) none =
      .ok ⟨"SELECT * FROM `t`", []⟩ := rfl

/-- C9 (amended): for a `Read`, a supplied non-zero `limit` compiles
only when it lies in `[1, 10000]` (appending `LIMIT`), and fails
otherwise; a `limit` of `0` is falsy and silently ignored.  A supplied
non-zero `offset` compiles only when non-negative (appending `OFFSET`);
an `offset` of `0` is likewise ignored. -/
theorem c9_read_limit_offset :
    ∀ (t : String) (l o : Int), validateTableName t = .ok () →
    (l ≠ 0 → ¬(0 < l ∧ l ≤ 10000) →
      compileRead t none none none (some l) none =
        .error "Invalid limit value. Must be between 1 and 10000.") ∧
    (0 < l → l ≤ 10000 →
      compileRead t none none none (some l) none =
        .ok ⟨"SELECT * FROM `" ++ t ++ "` LIMIT " ++ toString l, []⟩) ∧
    (compileRead t none none none (some 0) none =
      .ok ⟨"SELECT * FROM `" ++ t ++ "`", []⟩) ∧
    (o < 0 →
      compileRead t none none none none (some o) =
        .error "Invalid offset value. Must be non-negative.") ∧
    (0 < o →
      compileRead t none none none none (some o) =
        .ok ⟨"SELECT * FROM `" ++ t ++ "` OFFSET " ++ toString o, []⟩) ∧
    (compileRead t none none none none (some 0) =
      .ok ⟨"SELECT * FROM `" ++ t ++ "`", []⟩) := by
  intro t l o h
  refine ⟨?_, ?_, ?_, ?_, ?_, ?_⟩
  · intro hne hnot
    have hb : (decide (l > 0) && decide (l ≤ 10000)) = false := by
      simp only [Bool.and_eq_false_iff, decide_eq_false_iff_not]
      omega
    simp [compileRead, renderColumns, applyWhere, applyOrderBy, applyLimit, applyOffset, h, hne, hb, exBind_ok, exBind_error, exPure]
  · intro hl hl2
    have hne : l ≠ 0 := by omega
    simp [compileRead, renderColumns, applyWhere, applyOrderBy, applyLimit, applyOffset,
      h, hne, hl, hl2, exBind_ok, exPure, strToString, String.append_assoc,
      String.append_empty, String.empty_append]
    rfl
  · simp [compileRead, renderColumns, applyWhere, applyOrderBy, applyLimit, applyOffset,
      h, exBind_ok, exPure, strToString, String.append_assoc,
      String.append_empty, String.empty_append]
    rfl
  · intro ho
    have hne : o ≠ 0 := by omega
    have hb : ¬(o ≥ 0) := by omega
    simp [compileRead, renderColumns, applyWhere, applyOrderBy, applyLimit, applyOffset, h, hne, hb, exBind_ok, exBind_error, exPure]
  · intro ho
    have hne : o ≠ 0 := by omega
    have hb : o ≥ 0 := by omega
    simp [compileRead, renderColumns, applyWhere, applyOrderBy, applyLimit, applyOffset,
      h, hne, hb, exBind_ok, exPure, strToString, String.append_assoc,
      String.append_empty, String.empty_append]
    rfl
  · simp [compileRead, renderColumns, applyWhere, applyOrderBy, applyLimit, applyOffset,
      h, exBind_ok, exPure, strToString, String.append_assoc,
      String.append_empty, String.empty_append]
    rfl

/-- C9, witness: the amended theorem applied at concrete inputs. -/
theorem c9_witness :
    compileRead "t" none none none (some 10001) none =
      .error "Invalid limit value. Must be between 1 and 10000." ∧
    compileRead "t" none none none (some 50) none =
      .ok ⟨"SELECT * FROM `t` LIMIT 50", []⟩ ∧
    compileRead "t" none none none none (some (-3)) =
      .error "Invalid offset value. Must be non-negative." ∧
    compileRead "t" none none none none (some 7) =
      .ok ⟨"SELECT * FROM `t` OFFSET 7", []⟩ := by
  have h := c9_read_limit_offset "t" 10001 (-3) rfl
  have h2 := c9_read_limit_offset "t" 50 7 rfl
  refine ⟨h.1 (by decide) (by decide), ?_, h.2.2.2.1 (by decide), ?_⟩
  · have := h2.2.1 (by decide) (by decide)
    simpa using this
  · have := h2.2.2.2.2.1 (by decide)
    simpa using this

/-- C8: the `catch` branch of the `CallToolRequestSchema` handler
returns `\x7berror: true, message, details\x7d` where `details` is the raw
`error.stack` — a Node stack trace — not a short remediation hint.
Evaluated here at the error a failing `update` throws. -/
theorem c8_details_is_raw_stack :
    callToolCatch (.err
      ⟨"WHERE clause is required for UPDATE operations to prevent accidental updates",
        some "Error: WHERE clause is required for UPDATE operations to prevent accidental updates\n    at MySQLMCPImplementation.handleUpdate (dist/implementation.js:370:13)"⟩) =
      ⟨true,
        "WHERE clause is required for UPDATE operations to prevent accidental updates",
        some "Error: WHERE clause is required for UPDATE operations to prevent accidental updates\n    at MySQLMCPImplementation.handleUpdate (dist/implementation.js:370:13)"⟩ ∧
    (∀ e : JsError, (callToolCatch (.err e)).details = e.stack) :=
  ⟨rfl, fun _ => rfl⟩

/-- C10: an `execute` step inside a `Transaction` is checked only for a
non-empty query string; the raw text and parameters are pushed verbatim
for every non-empty query — no `allowWrite` gate and no injection
scans — while the standalone `Execute` rejects the very same text. -/
theorem c10_tx_execute_verbatim :
    (∀ (q : String) (ps : Option (List JsVal)), q ≠ "" →
      compileTxOp (.execute q ps) = .ok ⟨q, ps.getD []⟩) ∧
    (∀ ps, compileTxOp (.execute "" ps) =
      .error "Query required for EXECUTE in transaction") ∧
    compileTxOp (.execute "DROP TABLE users; -- gone" none) =
      .ok ⟨"DROP TABLE users; -- gone", []⟩ ∧
    compileExecute "DROP TABLE users; -- gone" none true =
      .error "Potentially dangerous SQL patterns detected in query." := by
  refine ⟨?_, fun ps => rfl, rfl, rfl⟩
  intro q ps hq
  simp [compileTxOp, hq]

/-- C10, witness: a stacked, commented, `information_schema`-reading
query passes the transaction path verbatim. -/
theorem c10_witness :
    compileTxOp (.execute "SELECT 1; DROP TABLE users" (some [.int 3])) =
      .ok ⟨"SELECT 1; DROP TABLE users", [.int 3]⟩ :=
  c10_tx_execute_verbatim.1 "SELECT 1; DROP TABLE users" (some [.int 3]) (by decide)

/-- C4: with `allowWrite` false any query matching the write-verb
word-boundary pattern is rejected; regardless of `allowWrite`, any query
matching the stacked-statement / comment-marker / `union
select`-`information_schema` patterns is rejected; and the single query
`DROP TABLE users` with `allowWrite` true compiles with the raw text and
parameters handed to the driver. -/
theorem c4_execute_write_gate_and_scans :
    (∀ (q : String) (ps : Option (List JsVal)), writeKeywordsTest q = true →
      compileExecute q ps false =
        .error "Write operations are not allowed. Set allowWrite: true to enable.") ∧
    (∀ q ps aw, executeDangerous q = true →
      ∃ msg, compileExecute q ps aw = .error msg) ∧
    compileExecute "DROP TABLE users" none true = .ok ⟨"DROP TABLE users", []⟩ ∧
    compileExecute "DROP TABLE users" none false =
      .error "Write operations are not allowed. Set allowWrite: true to enable." := by
  refine ⟨?_, ?_, rfl, rfl⟩
  · intro q ps h
    simp [compileExecute, h, exBind_error]
  · intro q ps aw h
    cases aw
    · by_cases hw : writeKeywordsTest q = true
      · exact ⟨"Write operations are not allowed. Set allowWrite: true to enable.",
          by simp [compileExecute, hw, exBind_error]⟩
      · refine ⟨"Potentially dangerous SQL patterns detected in query.", ?_⟩
        simp only [Bool.not_eq_true] at hw
        simp [compileExecute, hw, h, exBind_ok, exBind_error]
    · exact ⟨"Potentially dangerous SQL patterns detected in query.",
        by simp [compileExecute, h, exBind_ok, exBind_error]⟩

/-- C4, witness: the gates applied at concrete hostile queries. -/
theorem c4_witness :
    compileExecute "update users set a = 1" none false =
      .error "Write operations are not allowed. Set allowWrite: true to enable." ∧
    (∃ msg, compileExecute "SELECT 1; DROP TABLE users" none true = .error msg) := by
  refine ⟨c4_execute_write_gate_and_scans.1 "update users set a = 1" none (by decide), ?_⟩
  exact c4_execute_write_gate_and_scans.2.1 "SELECT 1; DROP TABLE users" none true (by decide)

theorem validateTableName_of_valid {t : String} (h : isValidIdent t = true) :
    validateTableName t = .ok () := by
  unfold isValidIdent at h
  simp only [Bool.and_eq_true, decide_eq_true_eq] at h
  simp [validateTableName, h.1, h.2]

theorem validateColumnName_of_valid {c : String} (h : isValidIdent c = true) :
    validateColumnName c = .ok () := by
  unfold isValidIdent at h
  simp only [Bool.and_eq_true, decide_eq_true_eq] at h
  simp [validateColumnName, h.1, h.2]

theorem guard_protected {op t : String} {c : Option String}
    (h : systemTables.contains (jsLower t) = true) :
    validateSchemaChangeSafety op t c =
      .error ("Schema modifications are not allowed on system table \x27" ++ t ++ "\x27") := by
  have h' : jsLower t ∈ systemTables := by simpa using h
  simp [validateSchemaChangeSafety, h', exBind_error, strToString, String.append_assoc,
    String.append_empty, String.empty_append]

/-- C5: every schema-mutating operation — `AddColumn`, `DropColumn`,
`ModifyColumn`, `RenameColumn`, `RenameTable`, `AddIndex`, `DropIndex` —
whose target table lower-cases into the protected set
(`mysql`, `information_schema`, `performance_schema`, `sys`) compiles to
the Schema-Safety Guard's error.  The oracle `db` is universally
quantified and the guard's error is returned before any mutating SQL is
assembled, so no pre-check or `ALTER`/`RENAME`/`CREATE INDEX` text is
ever produced for a protected table. -/
theorem c5_schema_guard :
    ∀ (db : Db) (dbName t c oldN newN : String),
    systemTables.contains (jsLower t) = true →
    isValidIdent t = true →
    (∀ column position, compileAddColumn t column position =
      .error ("Schema modifications are not allowed on system table \x27" ++ t ++ "\x27")) ∧
    (isValidIdent c = true → compileDropColumn db dbName t c =
      .error ("Schema modifications are not allowed on system table \x27" ++ t ++ "\x27")) ∧
    (isValidIdent c = true → ∀ nd, compileModifyColumn t c nd =
      .error ("Schema modifications are not allowed on system table \x27" ++ t ++ "\x27")) ∧
    (isValidIdent oldN = true → isValidIdent newN = true →
      ∀ ndef, compileRenameColumn db dbName t oldN newN ndef =
        .error ("Schema modifications are not allowed on system table \x27" ++ t ++ "\x27")) ∧
    (isValidIdent newN = true → compileRenameTable db dbName t newN =
      .error ("Schema modifications are not allowed on system table \x27" ++ t ++ "\x27")) ∧
    (∀ name cols ty u, compileAddIndex t name cols ty u =
      .error ("Schema modifications are not allowed on system table \x27" ++ t ++ "\x27")) ∧
    (∀ name, compileDropIndex db dbName t name =
      .error ("Schema modifications are not allowed on system table \x27" ++ t ++ "\x27")) := by
  intro db dbName t c oldN newN hprot ht
  have hT := validateTableName_of_valid ht
  refine ⟨?_, ?_, ?_, ?_, ?_, ?_, ?_⟩
  · intro column position
    simp [compileAddColumn, hT, guard_protected hprot, exBind_ok, exBind_error]
  · intro hc
    simp [compileDropColumn, hT, validateColumnName_of_valid hc,
      guard_protected hprot, exBind_ok, exBind_error]
  · intro hc nd
    simp [compileModifyColumn, hT, validateColumnName_of_valid hc,
      guard_protected hprot, exBind_ok, exBind_error]
  · intro ho hn ndef
    simp [compileRenameColumn, hT, validateColumnName_of_valid ho,
      validateColumnName_of_valid hn, guard_protected hprot, exBind_ok, exBind_error]
  · intro hn
    simp [compileRenameTable, hT, validateTableName_of_valid hn,
      guard_protected hprot, exBind_ok, exBind_error]
  · intro name cols ty u
    simp [compileAddIndex, hT, guard_protected hprot, exBind_ok, exBind_error]
  · intro name
    simp [compileDropIndex, hT, guard_protected hprot, exBind_ok, exBind_error]

/-- C5, witness: the guard theorem applied to `mysql` and to a
mixed-case `Information_Schema` target, with arbitrary oracle rows. -/
theorem c5_witness :
    compileAddColumn "mysql" (some ⟨"c", "INT", none, none, false, none⟩) none =
      .error "Schema modifications are not allowed on system table \x27mysql\x27" ∧
    compileDropColumn (fun _ _ => [.int 1]) "db" "mysql" "c" =
      .error "Schema modifications are not allowed on system table \x27mysql\x27" ∧
    compileRenameTable (fun _ _ => [.int 1]) "db" "Information_Schema" "t2" =
      .error "Schema modifications are not allowed on system table \x27Information_Schema\x27" ∧
    compileAddIndex "sys" (some "i") (some ["a"]) none false =
      .error "Schema modifications are not allowed on system table \x27sys\x27" := by
  have h1 := c5_schema_guard (fun _ _ => [.int 1]) "db" "mysql" "c" "x" "y"
    (by decide) (by decide)
  have h2 := c5_schema_guard (fun _ _ => [.int 1]) "db" "Information_Schema" "c" "x" "t2"
    (by decide) (by decide)
  have h3 := c5_schema_guard (fun _ _ => [.int 1]) "db" "sys" "c" "x" "y"
    (by decide) (by decide)
  refine ⟨?_, h1.2.1 (by decide), h2.2.2.2.2.1 (by decide), h3.2.2.2.2.2.1 (some "i") (some ["a"]) none false⟩
  have := h1.1 (some ⟨"c", "INT", none, none, false, none⟩) none
  simpa using this

theorem checkRecordsStructure_ok :
    ∀ (cols : List String) (rest : List (List (String × JsVal))) (i : Nat),
    checkRecordsStructure cols rest i = .ok () →
    ∀ r ∈ rest, (r.map Prod.fst).length = cols.length ∧
      ∀ c ∈ cols, c ∈ r.map Prod.fst := by
  intro cols rest
  induction rest with
  | nil => intro i h r hr; simp at hr
  | cons r0 rest ih =>
    intro i h r hr
    rw [checkRecordsStructure] at h
    split at h
    · exact absurd h (by simp)
    · rename_i hcond
      simp at hcond
      rcases List.mem_cons.mp hr with hr | hr
      · subst hr
        refine ⟨by simpa using hcond.1, fun c hc => ?_⟩
        rcases hcond.2 c hc with ⟨v, hv⟩
        exact List.mem_map.mpr ⟨(c, v), hv, rfl⟩
      · exact ih (i + 1) h r hr

theorem handleBulkInsert_ok_inv (t : String) (records : List (List (String × JsVal)))
    (st : CompiledStatement) (h : handleBulkInsertCompile t records = .ok st) :
    records ≠ [] ∧
    checkRecordsStructure ((records.headD []).map Prod.fst) records.tail 1 = .ok () ∧
    st.params =
      (records.map fun r => ((records.headD []).map Prod.fst).map (lookupVal r)).flatten := by
  simp only [handleBulkInsertCompile, dbBulkInsert, exBind_ok, exBind_error] at h
  rcases exBind_ok_iff.mp h with ⟨u1, h1, h⟩
  split at h
  · simp at h
  · rename_i hlen
    rcases exBind_ok_iff.mp h with ⟨u2, h2, h⟩
    split at h
    · simp at h
    · rename_i hcols
      rcases exBind_ok_iff.mp h with ⟨u3, h3, h⟩
      have hst := Except.ok.inj h
      refine ⟨by simpa using hlen, ?_, ?_⟩
      · rcases u3 with ⟨⟩
        exact h3
      · rw [← hst]

/-- C7, counterexample: a `bulk_insert` step inside a `Transaction` does
not enforce identical key sets across records — `handleTransaction`'s
`bulk_insert` branch only validates each record's keys and derives the
columns from record 0, so mismatched records compile, with the missing
column's value becoming `undefined`. -/
theorem c7_counterexample :
    compileTransaction [.bulkInsert "t" [[("a", .int 1)], [("b", .int 2)]]] =
      .ok [⟨"INSERT INTO `t` (`a`) VALUES (?), (?)", [.int 1, .undefined]⟩] := rfl

/-- C7 (amended): the standalone `BulkInsert` pipeline is rejected
unless it has at least one record and every record has exactly the first
record's key set (order- and value-independent comparison); on success
it produces a single multi-row `INSERT` whose placeholders follow record
0's column order, with the parameters flattened row-major (the spec's
example yields `VALUES (?, ?), (?, ?)` with parameters `[1,2,3,4]`).  A
`bulk_insert` step inside a `Transaction`, by contrast, skips the
key-set comparison (see the counterexample). -/
theorem c7_bulk_insert :
    (∀ t, isValidIdent t = true →
      handleBulkInsertCompile t [] =
        .error "Bulk insert data must be a non-empty array") ∧
    (∀ t records st, handleBulkInsertCompile t records = .ok st →
      records ≠ [] ∧
      (∀ r ∈ records,
        (r.map Prod.fst).length = ((records.headD []).map Prod.fst).length ∧
        ∀ c ∈ (records.headD []).map Prod.fst, c ∈ r.map Prod.fst) ∧
      st.params =
        (records.map fun r =>
          ((records.headD []).map Prod.fst).map (lookupVal r)).flatten) ∧
    handleBulkInsertCompile "t"
        [[("a", .int 1), ("b", .int 2)], [("a", .int 3), ("b", .int 4)]] =
      .ok ⟨"INSERT INTO `t` (`a`, `b`) VALUES (?, ?), (?, ?)",
        [.int 1, .int 2, .int 3, .int 4]⟩ ∧
    handleBulkInsertCompile "t"
        [[("a", .int 1), ("b", .int 2)], [("a", .int 3), ("c", .int 4)]] =
      .error "Record at index 1 has different structure than the first record" := by
  refine ⟨?_, ?_, rfl, rfl⟩
  · intro t ht
    simp [handleBulkInsertCompile, validateTableName_of_valid ht, exBind_ok, exBind_error]
  · intro t records st h
    obtain ⟨hne, hstruct, hparams⟩ := handleBulkInsert_ok_inv t records st h
    refine ⟨hne, ?_, hparams⟩
    intro r hr
    cases records with
    | nil => exact absurd rfl hne
    | cons r0 rest =>
      rcases List.mem_cons.mp hr with hr | hr
      · subst hr
        exact ⟨rfl, fun c hc => hc⟩
      · exact checkRecordsStructure_ok _ rest 1 (by simpa using hstruct) r hr

/-- C7, witness: the amended theorem at concrete inputs, including an
order-independent key-set match with row-major parameters. -/
theorem c7_witness :
    handleBulkInsertCompile "nums" [] =
      .error "Bulk insert data must be a non-empty array" ∧
    ([.int 1, .int 2, .int 3, .int 4] : List JsVal) =
      ([[("a", JsVal.int 1), ("b", JsVal.int 2)],
        [("b", JsVal.int 4), ("a", JsVal.int 3)]].map
          fun r => ["a", "b"].map (lookupVal r)).flatten := by
  constructor
  · exact c7_bulk_insert.1 "nums" (by decide)
  · have h := (c7_bulk_insert.2.1 "t"
      [[("a", JsVal.int 1), ("b", JsVal.int 2)], [("b", JsVal.int 4), ("a", JsVal.int 3)]]
      ⟨"INSERT INTO `t` (`a`, `b`) VALUES (?, ?), (?, ?)",
        [.int 1, .int 2, .int 3, .int 4]⟩ rfl).2.2
    simpa using h

theorem queryLoop_all_retryable (err : Nat → DriverError) (m d : Nat)
    (fmt : DriverError → String)
    (hr : ∀ j, 1 ≤ j → j ≤ m → isRetryableError (err j) = true) :
    ∀ (f i : Nat), 1 ≤ i → i + f = m →
    queryLoop (fun n => some (err n)) m d fmt i (f + 1) =
      ((List.range f).flatMap
          (fun j => [.attempt (i + j), .sleep (d * (i + j))]) ++
        [.attempt m],
       .error (fmt (err m))) := by
  intro f
  induction f with
  | zero =>
    intro i h1 h2
    have him : i = m := by omega
    subst him
    have : ¬(i < i) := by omega
    simp [queryLoop, this]
  | succ f ih =>
    intro i h1 h2
    have hi : i < m := by omega
    have hri : isRetryableError (err i) = true := hr i h1 (by omega)
    have hrec := ih (i + 1) (by omega) (by omega)
    rw [queryLoop]
    simp only [hi, hri, decide_True, Bool.true_and, if_pos, hrec]
    simp [List.range_succ_eq_map, List.flatMap_cons, List.flatMap_map, Nat.add_assoc,
      Nat.add_comm, Nat.add_left_comm, Nat.mul_comm]

/-- C6: the driver errors the spec lists (connection-refused, timeout,
connection-reset, lock-wait-timeout, deadlock, connection-lost) are all
classified retryable; when every attempt fails with a retryable error,
`DatabaseManager.query` makes exactly `maxRetries` attempts, sleeping
`retryDelay * attemptNumber` (linear backoff) between consecutive
attempts, and then surfaces the translated last error; a non-retryable
failure surfaces its translated error after exactly one attempt. -/
theorem c6_retry_policy :
    (isRetryableError ⟨some "ECONNREFUSED", none, ""⟩ = true ∧
      isRetryableError ⟨some "ETIMEDOUT", none, ""⟩ = true ∧
      isRetryableError ⟨some "ECONNRESET", none, ""⟩ = true ∧
      isRetryableError ⟨some "ER_LOCK_WAIT_TIMEOUT", none, ""⟩ = true ∧
      isRetryableError ⟨some "ER_LOCK_DEADLOCK", none, ""⟩ = true ∧
      isRetryableError ⟨some "PROTOCOL_CONNECTION_LOST", none, ""⟩ = true) ∧
    (∀ (err : Nat → DriverError) (maxRetries retryDelay : Nat)
      (fmt : DriverError → String),
      1 ≤ maxRetries →
      (∀ j, 1 ≤ j → j ≤ maxRetries → isRetryableError (err j) = true) →
      queryRun (fun n => some (err n)) maxRetries retryDelay fmt =
        ((List.range (maxRetries - 1)).flatMap
            (fun j => [.attempt (j + 1), .sleep (retryDelay * (j + 1))]) ++
          [.attempt maxRetries],
          .error (fmt (err maxRetries)))) ∧
    (∀ (e : DriverError) (maxRetries retryDelay : Nat)
      (fmt : DriverError → String), 1 ≤ maxRetries →
      isRetryableError e = false →
      queryRun (fun _ => some e) maxRetries retryDelay fmt =
        ([.attempt 1], .error (fmt e))) := by
  refine ⟨⟨rfl, rfl, rfl, rfl, rfl, rfl⟩, ?_, ?_⟩
  · intro err m d fmt hm hr
    obtain ⟨f, rfl⟩ : ∃ f, m = f + 1 := ⟨m - 1, by omega⟩
    have h := queryLoop_all_retryable err (f + 1) d fmt hr f 1 le_rfl (by omega)
    rw [queryRun, h]
    simp [Nat.add_comm]
  · intro e m d fmt hm hrf
    obtain ⟨f, rfl⟩ : ∃ f, m = f + 1 := ⟨m - 1, by omega⟩
    simp [queryRun, queryLoop, hrf]

/-- C6, witness: three deadlock-failing attempts with 100 ms base delay
sleep 100 then 200 ms and surface the translated deadlock error; a
duplicate-entry failure surfaces after a single attempt. -/
theorem c6_witness :
    queryRun (fun _ => some ⟨some "ER_LOCK_DEADLOCK", none, ""⟩) 3 100
        (formatDatabaseError ⟨"localhost", 3306, "root", "app"⟩) =
      ([.attempt 1, .sleep 100, .attempt 2, .sleep 200, .attempt 3],
        .error "Deadlock detected. The transaction was rolled back. You can retry the operation.") ∧
    queryRun (fun _ => some ⟨some "ER_DUP_ENTRY", none, ""⟩) 3 100
        (formatDatabaseError ⟨"localhost", 3306, "root", "app"⟩) =
      ([.attempt 1],
        .error "Duplicate entry. A record with this unique value already exists.") := by
  constructor
  · have h := c6_retry_policy.2.1 (fun _ => ⟨some "ER_LOCK_DEADLOCK", none, ""⟩) 3 100
      (formatDatabaseError ⟨"localhost", 3306, "root", "app"⟩) (by omega)
      (fun j _ _ => rfl)
    have hfmt : formatDatabaseError ⟨"localhost", 3306, "root", "app"⟩
        ⟨some "ER_LOCK_DEADLOCK", none, ""⟩ =
        "Deadlock detected. The transaction was rolled back. You can retry the operation." := rfl
    rw [h, hfmt]
    rfl
  · have h := c6_retry_policy.2.2 ⟨some "ER_DUP_ENTRY", none, ""⟩ 3 100
      (formatDatabaseError ⟨"localhost", 3306, "root", "app"⟩) (by omega) rfl
    have hfmt : formatDatabaseError ⟨"localhost", 3306, "root", "app"⟩
        ⟨some "ER_DUP_ENTRY", none, ""⟩ =
        "Duplicate entry. A record with this unique value already exists." := rfl
    rw [h, hfmt]

theorem txLoop_error_suffix (plan : Nat → Option (Nat × DriverError)) (m d n : Nat)
    (fmt : DriverError → String) :
    ∀ (fuel i : Nat), i + fuel = m + 1 → 1 ≤ fuel →
    ∀ (tr : List TxEvent) (e : String),
    txLoop plan m d n fmt i fuel = (tr, .error e) →
    ∃ pre, tr = pre ++ [.rollback, .release] := by
  intro fuel
  induction fuel with
  | zero => intro i h1 h2; omega
  | succ f ih =>
    intro i hinv hf tr e h
    rw [txLoop] at h
    cases hp : plan i with
    | none =>
      rw [hp] at h
      dsimp only at h
      simp at h
    | some ke =>
      rw [hp] at h
      dsimp only at h
      by_cases hc : (decide (i < m) && isRetryableError ke.2) = true
      · rw [if_pos hc] at h
        have him : i < m := by
          rw [Bool.and_eq_true] at hc
          simpa using hc.1
        have hfuel : 1 ≤ f := by omega
        injection h with htr hres
        obtain ⟨pre, hpre⟩ := ih (i + 1) (by omega) hfuel
          (txLoop plan m d n fmt (i + 1) f).1 e (by rw [← hres])
        refine ⟨txAttemptFail n ke.1 ++ [.sleep (d * i), .release] ++ pre, ?_⟩
        rw [← htr, hpre]
        simp [List.append_assoc]
      · rw [if_neg hc] at h
        injection h with htr hres
        refine ⟨.acquire :: .beginTx :: ((List.range (min ke.1 n)).map .exec), ?_⟩
        rw [← htr]
        simp [txAttemptFail, List.append_assoc]

/-- C3: a `Transaction` is all-or-nothing.  (i) If any step fails
compilation — an `update` with no `where`, an unsupported/nested
operation — the whole transaction compiles to that error and the
execution model produces no events at all (no statement executes).
(ii) A non-retryable step failure yields: acquire, begin, the steps
executed before the failing one, rollback, release — and only then the
translated error.  (iii) Whenever the transaction run surfaces an error,
the event trace ends with a rollback followed by the connection
release. -/
theorem c3_transaction_atomicity :
    (∀ (ops : List TxOp) (e : String) (plan : Nat → Option (Nat × DriverError))
      (m d : Nat) (fmt : DriverError → String),
      compileTransaction ops = .error e →
      handleTransactionModel ops plan m d fmt = ([], .error e)) ∧
    compileTransaction [.create "t" [("a", .int 1)], .update "t" [("b", .int 2)] none] =
      .error "WHERE clause required for UPDATE in transaction" ∧
    compileTransaction [.unsupported "transaction"] =
      .error "Unsupported operation type: transaction" ∧
    (∀ (k : Nat) (e : DriverError) (m d n : Nat) (fmt : DriverError → String),
      1 ≤ m → isRetryableError e = false →
      txRun (fun _ => some (k, e)) m d n fmt =
        (.acquire :: .beginTx :: ((List.range (min k n)).map .exec) ++
            [.rollback, .release],
          .error (fmt e))) ∧
    (∀ (plan : Nat → Option (Nat × DriverError)) (m d n : Nat)
      (fmt : DriverError → String) (tr : List TxEvent) (e : String),
      1 ≤ m → txRun plan m d n fmt = (tr, .error e) →
      ∃ pre, tr = pre ++ [.rollback, .release]) := by
  refine ⟨?_, rfl, rfl, ?_, ?_⟩
  · intro ops e plan m d fmt hcomp
    simp only [handleTransactionModel, hcomp]
  · intro k e m d n fmt hm hrf
    obtain ⟨f, rfl⟩ : ∃ f, m = f + 1 := ⟨m - 1, by omega⟩
    rw [txRun, txLoop]
    dsimp only
    rw [if_neg (by simp [hrf])]
    simp [txAttemptFail, List.append_assoc]
  · intro plan m d n fmt tr e hm h
    rw [txRun] at h
    exact txLoop_error_suffix plan m d n fmt m 1 (by omega) (by omega) tr e h

/-- C3, witness: the atomicity theorem at concrete inputs — a
transaction whose `update` step lacks `where` produces no events; a
duplicate-entry failure at step 1 of 2 rolls back and releases before
the error surfaces. -/
theorem c3_witness :
    handleTransactionModel [.create "t" [("a", .int 1)], .update "t" [("b", .int 2)] none]
        (fun _ => none) 3 100 (fun _ => "E") =
      ([], .error "WHERE clause required for UPDATE in transaction") ∧
    txRun (fun _ => some (1, ⟨some "ER_DUP_ENTRY", none, ""⟩)) 3 100 2 (fun _ => "E") =
      ([.acquire, .beginTx, .exec 0, .rollback, .release], .error "E") ∧
    (∃ pre, ([.acquire, .beginTx, .exec 0, .rollback, .release] : List TxEvent) =
      pre ++ [.rollback, .release]) := by
  have h1 := c3_transaction_atomicity.1
    [.create "t" [("a", .int 1)], .update "t" [("b", .int 2)] none]
    "WHERE clause required for UPDATE in transaction" (fun _ => none) 3 100
    (fun _ => "E") rfl
  have h2 := c3_transaction_atomicity.2.2.2.1 1 ⟨some "ER_DUP_ENTRY", none, ""⟩ 3 100 2
    (fun _ => "E") (by omega) rfl
  refine ⟨h1, ?_, ?_⟩
  · rw [h2]
    rfl
  · exact c3_transaction_atomicity.2.2.2.2 (fun _ => some (1, ⟨some "ER_DUP_ENTRY", none, ""⟩))
      3 100 2 (fun _ => "E") _ "E" (by omega) (by rw [h2]; rfl)

/-- The shape of a `where` value — the only thing about a value the
generated clause text can depend on. -/
inductive WhereShape where
  | isNull
  | inList (n : Nat)
  | scalar
  deriving Repr, DecidableEq

def shapeOf : JsVal → WhereShape
  | .null => .isNull
  | .arr vs => .inList vs.length
  | _ => .scalar

theorem whereCond_shape {k : String} {v₁ v₂ : JsVal} (h : shapeOf v₁ = shapeOf v₂) :
    whereCond k v₁ = whereCond k v₂ := by
  cases v₁ <;> cases v₂ <;> simp_all [shapeOf, whereCond]

theorem buildWhereParts_fst_ext :
    ∀ (w₁ w₂ : List (String × JsVal)),
    w₁.map (fun kv => (kv.1, shapeOf kv.2)) = w₂.map (fun kv => (kv.1, shapeOf kv.2)) →
    (buildWhereParts w₁).1 = (buildWhereParts w₂).1 := by
  intro w₁
  induction w₁ with
  | nil => intro w₂ h; cases w₂ <;> simp_all [buildWhereParts]
  | cons kv w₁ ih =>
    intro w₂ h
    cases w₂ with
    | nil => simp at h
    | cons kv₂ w₂ =>
      simp only [List.map_cons, List.cons.injEq, Prod.mk.injEq] at h
      obtain ⟨⟨hk, hs⟩, htail⟩ := h
      simp only [buildWhereParts]
      rw [ih w₂ htail, hk, whereCond_shape hs]

theorem buildWhereParts_snd :
    ∀ (w : List (String × JsVal)),
    (buildWhereParts w).2 = (w.map fun kv => whereParamsOf kv.2).flatten := by
  intro w
  induction w with
  | nil => simp [buildWhereParts]
  | cons kv w ih => simp [buildWhereParts, ih]

theorem buildWhereParts_fst_length :
    ∀ (w : List (String × JsVal)), (buildWhereParts w).1.length = w.length := by
  intro w
  induction w with
  | nil => simp [buildWhereParts]
  | cons kv w ih => simp [buildWhereParts, ih]

theorem buildWhereClause_ok_inv {w : List (String × JsVal)} {c : String} {p : List JsVal}
    (h : buildWhereClause w = .ok (c, p)) :
    validateWhereConditions w = .ok () ∧
    c = (if (buildWhereParts w).1.length > 0 then
      "WHERE " ++ String.intercalate " AND " (buildWhereParts w).1 else "") ∧
    p = (buildWhereParts w).2 := by
  simp only [buildWhereClause] at h
  rcases exBind_ok_iff.mp h with ⟨u, hv, h⟩
  rcases u
  refine ⟨hv, ?_, ?_⟩ <;> [skip; skip] <;>
    · have := Except.ok.inj h
      simp only [Prod.mk.injEq] at this
      tauto

theorem validateData_keys_eq :
    ∀ (d₁ d₂ : List (String × JsVal)), d₁.map Prod.fst = d₂.map Prod.fst →
    validateData d₁ = validateData d₂ := by
  intro d₁
  induction d₁ with
  | nil => intro d₂ h; cases d₂ <;> simp_all [validateData]
  | cons kv d₁ ih =>
    intro d₂ h
    cases d₂ with
    | nil => simp at h
    | cons kv₂ d₂ =>
      simp only [List.map_cons, List.cons.injEq] at h
      simp only [validateData, h.1, ih d₂ h.2]

theorem applyWhere_of_bwc {w : List (String × JsVal)} {c : String} {p : List JsVal}
    (h : buildWhereClause w = .ok (c, p)) (sql : String) :
    applyWhere sql (some w) =
      .ok (if c ≠ "" then sql ++ " " ++ c else sql, if c ≠ "" then p else []) := by
  simp only [applyWhere, h, exBind_ok]
  by_cases hc : c ≠ "" <;> simp [hc, exPure]

theorem applyWhere_ok_params :
    ∀ (sql : String) (whereM : Option (List (String × JsVal)))
      (sp : String × List JsVal),
    applyWhere sql whereM = .ok sp →
    sp.2 = ((whereM.getD []).map fun kv => whereParamsOf kv.2).flatten := by
  intro sql whereM sp h
  cases whereM with
  | none =>
    simp only [applyWhere, exPure] at h
    rw [← Except.ok.inj h]
    simp
  | some w =>
    simp only [applyWhere] at h
    rcases exBind_ok_iff.mp h with ⟨cp, hB, hf⟩
    obtain ⟨c, wp⟩ := cp
    obtain ⟨hv, hc, hp⟩ := buildWhereClause_ok_inv hB
    dsimp only at hf
    split at hf
    · rw [exPure] at hf
      rw [← Except.ok.inj hf]
      dsimp only
      rw [hp, buildWhereParts_snd]
      simp
    · rename_i hcne
      have hceq : c = "" := by simpa using hcne
      subst hceq
      rw [exPure] at hf
      rw [← Except.ok.inj hf]
      dsimp only
      have hwnil : w = [] := by
        by_cases hodd : (buildWhereParts w).1.length > 0
        · rw [if_pos hodd] at hc
          exfalso
          have := congrArg String.data hc
          simp [String.data_append] at this
        · have hlen := buildWhereParts_fst_length w
          have : w.length = 0 := by omega
          exact List.length_eq_zero.mp this
      subst hwnil
      simp

theorem ite_params_flatten {w : List (String × JsVal)} {c : String} {p : List JsVal}
    (h : buildWhereClause w = .ok (c, p)) :
    (if c ≠ "" then p else []) = (w.map fun kv => whereParamsOf kv.2).flatten := by
  obtain ⟨hv, hc, hp⟩ := buildWhereClause_ok_inv h
  by_cases hcc : c ≠ ""
  · rw [if_pos hcc, hp, buildWhereParts_snd]
  · have hceq : c = "" := by simpa using hcc
    rw [if_neg hcc]
    subst hceq
    have hwnil : w = [] := by
      by_cases hodd : (buildWhereParts w).1.length > 0
      · rw [if_pos hodd] at hc
        exfalso
        have := congrArg String.data hc
        simp [String.data_append] at this
      · have hlen := buildWhereParts_fst_length w
        have : w.length = 0 := by omega
        exact List.length_eq_zero.mp this
    subst hwnil
    simp

theorem map_set_keys :
    ∀ (d₁ d₂ : List (String × JsVal)), d₁.map Prod.fst = d₂.map Prod.fst →
    (d₁.map fun kv => "`" ++ (kv.1 ++ "` = ?")) =
      (d₂.map fun kv => "`" ++ (kv.1 ++ "` = ?")) := by
  intro d₁
  induction d₁ with
  | nil => intro d₂ h; cases d₂ <;> simp_all
  | cons kv d₁ ih =>
    intro d₂ h
    cases d₂ with
    | nil => simp at h
    | cons kv₂ d₂ =>
      simp only [List.map_cons, List.cons.injEq] at h ⊢
      exact ⟨by rw [h.1], ih d₂ h.2⟩

/-- C1, counterexample: `AddColumn` is a schema operation in the
claim's scope, and its caller-supplied column default value `x` is
embedded in the generated `ALTER TABLE` text as an escaped literal
(`DEFAULT \x27x\x27`) while the parameter list stays empty — the value is
concatenated into SQL text, not bound. -/
theorem c1_counterexample :
    compileAddColumn "t" (some ⟨"c", "INT", none, some (.str "x"), false, none⟩) none =
      .ok ⟨"ALTER TABLE `t` ADD COLUMN `c` INT DEFAULT \x27x\x27", []⟩ := rfl

/-- C1 (amended): for `Read`, `Create`, `Update`, `Delete` and
`BulkInsert`, every caller-supplied value reaches the driver only
through the bound-parameter list: the parameter list is exactly the
flattened values, and the generated SQL text depends only on the table,
the keys, and the value *shapes* (null / array-length / scalar) — two
operations differing only in values compile to the identical SQL string.
Exception (beyond `Execute`/`DDL`): column default values (and
comments) of the schema operations are embedded in the DDL text as
quote-doubled literals, not parameters. -/
theorem c1_values_as_parameters :
    (∀ (w : List (String × JsVal)) (c : String) (p : List JsVal),
      buildWhereClause w = .ok (c, p) →
      p = (w.map fun kv => whereParamsOf kv.2).flatten) ∧
    (∀ (w₁ w₂ : List (String × JsVal)) (c₁ c₂ : String) (p₁ p₂ : List JsVal),
      w₁.map (fun kv => (kv.1, shapeOf kv.2)) = w₂.map (fun kv => (kv.1, shapeOf kv.2)) →
      buildWhereClause w₁ = .ok (c₁, p₁) → buildWhereClause w₂ = .ok (c₂, p₂) →
      c₁ = c₂) ∧
    (∀ (t : String) (d₁ d₂ : List (String × JsVal)),
      d₁.map Prod.fst = d₂.map Prod.fst →
      validateTableName t = .ok () → validateData d₁ = .ok () →
      ∃ sql, compileCreate t d₁ = .ok ⟨sql, d₁.map Prod.snd⟩ ∧
        compileCreate t d₂ = .ok ⟨sql, d₂.map Prod.snd⟩) ∧
    (∀ (t : String) (d₁ d₂ w₁ w₂ : List (String × JsVal)) (c : String)
      (p₁ p₂ : List JsVal),
      d₁.map Prod.fst = d₂.map Prod.fst →
      validateTableName t = .ok () → validateData d₁ = .ok () →
      buildWhereClause w₁ = .ok (c, p₁) → buildWhereClause w₂ = .ok (c, p₂) →
      ∃ sql, compileUpdate t d₁ (some w₁) = .ok ⟨sql, d₁.map Prod.snd ++ p₁⟩ ∧
        compileUpdate t d₂ (some w₂) = .ok ⟨sql, d₂.map Prod.snd ++ p₂⟩) ∧
    (∀ (t : String) (w₁ w₂ : List (String × JsVal)) (c : String)
      (p₁ p₂ : List JsVal),
      validateTableName t = .ok () →
      buildWhereClause w₁ = .ok (c, p₁) → buildWhereClause w₂ = .ok (c, p₂) →
      ∃ sql, compileDelete t (some w₁) = .ok ⟨sql, p₁⟩ ∧
        compileDelete t (some w₂) = .ok ⟨sql, p₂⟩) ∧
    (∀ (t : String) (cols : Option (List String)) (ob : Option String)
      (l o : Option Int) (w₁ w₂ : List (String × JsVal)) (c : String)
      (p₁ p₂ : List JsVal) (st₁ : CompiledStatement),
      buildWhereClause w₁ = .ok (c, p₁) → buildWhereClause w₂ = .ok (c, p₂) →
      compileRead t cols (some w₁) ob l o = .ok st₁ →
      compileRead t cols (some w₂) ob l o =
        .ok ⟨st₁.sql, (w₂.map fun kv => whereParamsOf kv.2).flatten⟩ ∧
      st₁.params = (w₁.map fun kv => whereParamsOf kv.2).flatten) ∧
    (∀ (t : String) (records : List (List (String × JsVal)))
      (st : CompiledStatement), handleBulkInsertCompile t records = .ok st →
      st.params =
        (records.map fun r =>
          ((records.headD []).map Prod.fst).map (lookupVal r)).flatten) ∧
    (∀ (nm ty s : String),
      buildColumnDefinition ⟨nm, ty, none, some (.str s), false, none⟩ =
        "`" ++ sanitizeIdentifier nm ++ "` " ++ ty ++ " DEFAULT \x27" ++
          escapeQuotes s ++ "\x27") := by
  refine ⟨?_, ?_, ?_, ?_, ?_, ?_, ?_, ?_⟩
  · intro w c p h
    obtain ⟨hv, hc, hp⟩ := buildWhereClause_ok_inv h
    rw [hp, buildWhereParts_snd]
  · intro w₁ w₂ c₁ c₂ p₁ p₂ hsh h₁ h₂
    obtain ⟨_, hc₁, _⟩ := buildWhereClause_ok_inv h₁
    obtain ⟨_, hc₂, _⟩ := buildWhereClause_ok_inv h₂
    rw [hc₁, hc₂, buildWhereParts_fst_ext w₁ w₂ hsh]
  · intro t d₁ d₂ hkeys hT hD
    have hD₂ : validateData d₂ = .ok () := by
      rw [← validateData_keys_eq d₁ d₂ hkeys]
      exact hD
    refine ⟨"INSERT INTO `" ++ t ++ "` (" ++
      String.intercalate ", " (d₁.map fun kv => "`" ++ kv.1 ++ "`") ++ ") VALUES (" ++
      String.intercalate ", " (d₁.map fun _ => "?") ++ ")", ?_, ?_⟩
    · simp [compileCreate, hT, hD, exBind_ok, strToString, String.append_assoc,
        String.append_empty, String.empty_append, List.map_map, Function.comp_def,
        List.map_const]
    · simp only [compileCreate, hT, hD₂, exBind_ok]
      rw [show (d₂.map Prod.fst) = (d₁.map Prod.fst) from hkeys.symm]
      simp [strToString, String.append_assoc, String.append_empty, String.empty_append,
        List.map_map, Function.comp_def, List.map_const]
  · intro t d₁ d₂ w₁ w₂ c p₁ p₂ hkeys hT hD hw₁ hw₂
    have hD₂ : validateData d₂ = .ok () := by
      rw [← validateData_keys_eq d₁ d₂ hkeys]
      exact hD
    refine ⟨"UPDATE `" ++ t ++ "` SET " ++
      String.intercalate ", " (d₁.map fun kv => "`" ++ kv.1 ++ "` = ?") ++ " " ++ c,
      ?_, ?_⟩
    · simp [compileUpdate, hT, hD, hw₁, exBind_ok, strToString, String.append_assoc,
        String.append_empty, String.empty_append]
    · have hset := map_set_keys d₂ d₁ hkeys.symm
      simp [compileUpdate, hT, hD₂, hw₂, exBind_ok, strToString, String.append_assoc,
        String.append_empty, String.empty_append, hset]
  · intro t w₁ w₂ c p₁ p₂ hT hw₁ hw₂
    refine ⟨"DELETE FROM `" ++ t ++ "` " ++ c, ?_, ?_⟩
    · simp [compileDelete, hT, hw₁, exBind_ok, strToString, String.append_assoc,
        String.append_empty, String.empty_append]
    · simp [compileDelete, hT, hw₂, exBind_ok, strToString, String.append_assoc,
        String.append_empty, String.empty_append]
  · intro t cols ob l o w₁ w₂ c p₁ p₂ st₁ hw₁ hw₂ h₁
    simp only [compileRead] at h₁
    rcases exBind_ok_iff.mp h₁ with ⟨u, hT, h₁⟩
    rcases u
    rcases exBind_ok_iff.mp h₁ with ⟨colStr, hC, h₁⟩
    rcases exBind_ok_iff.mp h₁ with ⟨sp, hW, h₁⟩
    rw [applyWhere_of_bwc hw₁] at hW
    have hsp := (Except.ok.inj hW)
    subst hsp
    rcases exBind_ok_iff.mp h₁ with ⟨sql₁, hL, h₁⟩
    rcases exBind_ok_iff.mp h₁ with ⟨sql₂, hO, h₁⟩
    have hst := Except.ok.inj h₁
    constructor
    · simp only [compileRead, hT, hC, exBind_ok]
      rw [applyWhere_of_bwc hw₂]
      simp only [exBind_ok]
      rw [hL]
      simp only [exBind_ok]
      rw [hO]
      simp only [exBind_ok]
      rw [← hst]
      dsimp only
      rw [ite_params_flatten hw₂]
    · rw [← hst]
      dsimp only
      rw [ite_params_flatten hw₁]
  · intro t records st h
    exact (handleBulkInsert_ok_inv t records st h).2.2
  · intro nm ty s
    simp [buildColumnDefinition, strToString, String.append_assoc, String.append_empty,
      String.empty_append]

/-- C1, witness: the binding theorem at concrete inputs — a create and
an update differing only in values share one SQL string, with the
values appearing exactly as the parameter lists. -/
theorem c1_witness :
    ([.int 5] : List JsVal) =
      ([("id", JsVal.int 5)].map fun kv => whereParamsOf kv.2).flatten ∧
    (∃ sql, compileCreate "t" [("a", .int 1)] = .ok ⟨sql, [.int 1]⟩ ∧
      compileCreate "t" [("a", .str "x")] = .ok ⟨sql, [.str "x"]⟩) ∧
    (∃ sql, compileUpdate "t" [("a", .int 1)] (some [("id", .int 5)]) =
        .ok ⟨sql, [.int 1, .int 5]⟩ ∧
      compileUpdate "t" [("a", .int 2)] (some [("id", .int 9)]) =
        .ok ⟨sql, [.int 2, .int 9]⟩) := by
  refine ⟨?_, ?_, ?_⟩
  · exact c1_values_as_parameters.1 [("id", JsVal.int 5)] "WHERE `id` = ?" [.int 5] rfl
  · have h := c1_values_as_parameters.2.2.1 "t" [("a", JsVal.int 1)] [("a", JsVal.str "x")]
      rfl rfl rfl
    simpa using h
  · have h := c1_values_as_parameters.2.2.2.1 "t" [("a", JsVal.int 1)] [("a", JsVal.int 2)]
      [("id", JsVal.int 5)] [("id", JsVal.int 9)] "WHERE `id` = ?" [.int 5] [.int 9]
      rfl rfl rfl rfl rfl
    simpa using h

end MysqlMcp
